import Mathlib

/-!
Verification of the Kinesis MCP server (awslabs/kinesis_mcp_server).

This file shallowly embeds the validation and dispatch logic of
`awslabs/kinesis_mcp_server/server.py`, `common.py` and the constants of
`consts.py` into Lean, and proves theorems about the embedded code.

Modelling conventions:
* Python `None`-able string arguments become `Option String`; a plain
  required `str` argument becomes `String`.
* Python exceptions are the explicit error values of `PyErr`; a tool body
  that raises returns `Except.error`.
* `isinstance` checks on arguments whose Lean type already guarantees the
  Python type (e.g. `isinstance(stream_name, str)` when the embedding fixes
  the argument to `String`) are vacuous and noted in comments.
* A Python `dict` of tags is embedded as an association list
  `List (String × String)`; `len(dict)` corresponds to the list length when
  keys are distinct (theorems use distinct keys).
* The boto3 client call made by a tool is recorded as a `KCall` value
  (API name and the keyword-argument mapping built by the tool); the pair
  returned by a tool embedding is (calls issued, outcome).
-/

/-- Python exception values distinguished by the code: `ValueError`,
`TypeError`, and every other exception class. -/
inductive PyErr where
  | valueError (msg : String)
  | typeError (msg : String)
  | otherError (msg : String)
deriving Repr, DecidableEq

/-- A value appearing in a keyword-argument mapping passed to the boto3
client. -/
inductive PVal where
  | vStr (s : String)
  | vInt (n : Int)
  | vRecords (rs : List String)
  | vDict (kvs : List (String × String))
  | vStrList (ss : List String)
deriving Repr, DecidableEq

/-- One call issued to the boto3 Kinesis client: the API method name and
the keyword arguments passed (`kinesis.<api>(**params)`). -/
structure KCall where
  api : String
  params : List (String × PVal)
deriving Repr, DecidableEq

/-! ## Constants (consts.py) -/

def DEFAULT_REGION : String := "us-west-2"
def DEFAULT_SHARD_COUNT : Int := 1
def DEFAULT_STREAM_LIMIT : Int := 100
def DEFAULT_GET_RECORDS_LIMIT : Int := 10000
def DEFUALT_MAX_RESULTS : Int := 100
def DEFAULT_MAX_RESULTS : Int := 1000

def STREAM_MODE_ON_DEMAND : String := "ON_DEMAND"
def STREAM_MODE_PROVISIONED : String := "PROVISIONED"

def MAX_STREAM_NAME_LENGTH : Nat := 128
def MIN_STREAM_NAME_LENGTH : Nat := 1
def MAX_STREAM_ARN_LENGTH : Nat := 2048
def MIN_STREAM_ARN_LENGTH : Nat := 1

def MAX_LIMIT : Int := 10000
def MIN_LIMIT : Int := 1

def MAX_SHARDS_PER_STREAM : Int := 500
def MIN_SHARDS_PER_STREAM : Int := 1
def MAX_SHARD_ID_LENGTH : Nat := 128
def MIN_SHARD_ID_LENGTH : Nat := 1

def MAX_RESULTS_PER_STREAM : Int := 1000
def MIN_RESULTS_PER_STREAM : Int := 1

def MAX_RECORDS : Nat := 500
def MIN_RECORDS : Nat := 1

def MAX_LENGTH_SHARD_ITERATOR : Nat := 512
def MIN_LENGTH_SHARD_ITERATOR : Nat := 1

/-- `VALID_SHARD_ITERATOR_TYPES` from consts.py (a Python set; embedded as
the list of its elements in literal order). -/
def VALID_SHARD_ITERATOR_TYPES : List String :=
  ["AT_SEQUENCE_NUMBER", "AFTER_SEQUENCE_NUMBER", "TRIM_HORIZON", "LATEST", "AT_TIMESTAMP"]

/-- `VALID_SHARD_LEVEL_METRICS` from consts.py. -/
def VALID_SHARD_LEVEL_METRICS : List String :=
  ["IncomingBytes", "IncomingRecords", "OutgoingBytes", "OutgoingRecords",
   "WriteProvisionedThroughputExceeded", "ReadProvisionedThroughputExceeded",
   "IteratorAgeMilliseconds", "All"]

def MIN_SHARD_LEVEL_METRICS : Nat := 1
def MAX_SHARD_LEVEL_METRICS : Nat := 7

def MAX_TAGS_COUNT : Nat := 50
def MAX_TAG_KEY_LENGTH : Nat := 128
def MIN_TAG_KEY_LENGTH : Nat := 1
def MAX_TAG_VALUE_LENGTH : Nat := 256

/-! ## common.py: the two decorators -/

/-- The outcome of running a Python callable: a returned value or a raised
exception. -/
inductive PyOutcome (α : Type) where
  | ok (a : α)
  | exn (e : PyErr)
deriving Repr, DecidableEq

/-- `handle_exceptions` (common.py lines 9-44).  Both the sync and async
wrappers have the same body: return the wrapped result on success;
re-raise `ValueError`/`TypeError`; for any other exception print a log line
and, if the environment variable `TESTING` equals `'true'`, re-raise,
otherwise return `None`.  `testing` is `os.environ.get('TESTING')`;
the first component of the result is the list of printed log lines; the
wrapped return type becomes `Option α` since the wrapper can return
`None`. -/
def handle_exceptions {α : Type} (testing : Option String) (outcome : PyOutcome α) :
    List String × PyOutcome (Option α) :=
  match outcome with
  | .ok a => ([], .ok (some a))
  | .exn (.valueError m) => ([], .exn (.valueError m))
  | .exn (.typeError m) => ([], .exn (.typeError m))
  | .exn (.otherError m) =>
      -- the print of the error message is recorded as a log line
      if testing = some "true" then
        (["An error occurred: " ++ m], .exn (.otherError m))
      else
        (["An error occurred: " ++ m], .ok none)

/-- `str.lower()` (embedded over the character list so that it reduces). -/
def pyLower (s : String) : String := String.mk (s.data.map Char.toLower)

/-- `str.startswith(pre)`. -/
def pyStartsWith (s pre : String) : Bool := pre.data.isPrefixOf s.data

/-- The result of calling a function wrapped by `confirm_destruction`:
either the fixed advisory dict (its `'message'` value) or the wrapped
function's result. -/
inductive GuardResult (α : Type) where
  | blocked (message : String)
  | ran (a : α)
deriving Repr, DecidableEq

/-- The advisory message returned by `confirm_destruction`
(common.py lines 54-68; triple-quoted string, apostrophes written with
hex escapes). -/
def destructionBlockedMessage : String :=
  "\n                    Deletion blocked: Safety mechanism activated\n\n                    This operation was blocked by a safety mechanism designed to prevent accidental deletion of important resources.\n\n                    To proceed with deletion, you have the following options:\n\n                    1. Set the CONFIRM_DESTRUCTIVE_ACTION environment variable to \x27false\x27\n                    2. Use the AWS CLI directly: aws kinesis delete-stream --stream-name <name> --enforce-consumer-deletion\n                    3. Use the AWS Console to delete the resource through the web interface\n\n                    WARNING: Deletion will permanently remove all data in this resource.\n                "

/-- `confirm_destruction` (common.py lines 47-71).  `confirmEnv` is
`os.environ.get('CONFIRM-DESTRUCTION')`; the code defaults it to `''`,
lowercases it, and blocks if the result is `'false'` or `'no'`. -/
def confirm_destruction {α : Type} (confirmEnv : Option String) (f : Unit → α) :
    GuardResult α :=
  let allow_destruction := pyLower (confirmEnv.getD "")
  if allow_destruction = "false" ∨ allow_destruction = "no" then
    .blocked destructionBlockedMessage
  else
    .ran (f ())

/-! ## Shared validation helpers (server.py)

The stream_name / stream_arn validation blocks below are textually
identical in put_records (lines 153-175), describe_stream_summary
(438-460), get_shard_iterator (521-543), describe_stream (682-704),
enable_enhanced_monitoring (979-1001), increase_stream_retention_period
(1084-1106), list_shards (1168-1190) and list_tags_for_stream (1321-1343),
so they are factored into helper definitions. -/

/-- Python truthiness of an optional string: `not x` is true when the
argument is `None` or the empty string. -/
def strFalsy (o : Option String) : Bool := (o.getD "") = ""

/-- The character class of the pattern `[a-zA-Z0-9._-]` (used for both
stream names and shard ids; the two regexes list the same characters). -/
def isNameChar (c : Char) : Bool :=
  c.isAlpha || c.isDigit || c = '.' || c = '_' || c = '-'

/-- `re.match(r'^[a-zA-Z0-9._-]+$', s)` is truthy iff `s` is nonempty and
every character is in the class (the Python `$`-before-trailing-newline
corner is immaterial here since a newline is not in the class anyway
for the whole-string match). -/
def reMatchNamePattern (s : String) : Bool :=
  decide (1 ≤ s.length) && s.data.all isNameChar

def streamNameCharsMsg : String :=
  "stream_name can only contain alphanumeric characters, hyphens, underscores, and periods"

def streamNameLenMsg : String :=
  "stream_name length must be between " ++ toString MIN_STREAM_NAME_LENGTH ++ " and "
    ++ toString MAX_STREAM_NAME_LENGTH ++ " characters"

def streamArnLenMsg : String :=
  "stream_arn length must be between " ++ toString MIN_STREAM_ARN_LENGTH ++ " and "
    ++ toString MAX_STREAM_ARN_LENGTH ++ " characters"

def idRequiredMsg : String := "Either stream_name or stream_arn must be provided"

/-- The `if stream_name is not None:` validation block: `isinstance` check
(vacuous here), character-class check, then length check. -/
def check_stream_name : Option String → Except PyErr Unit
  | none => .ok ()
  | some s =>
    if reMatchNamePattern s = false then
      .error (.valueError streamNameCharsMsg)
    else if s.length < MIN_STREAM_NAME_LENGTH ∨ s.length > MAX_STREAM_NAME_LENGTH then
      .error (.valueError streamNameLenMsg)
    else .ok ()

/-- The `if stream_arn is not None:` validation block: `isinstance` check
(vacuous here) then length check. -/
def check_stream_arn : Option String → Except PyErr Unit
  | none => .ok ()
  | some s =>
    if s.length < MIN_STREAM_ARN_LENGTH ∨ s.length > MAX_STREAM_ARN_LENGTH then
      .error (.valueError streamArnLenMsg)
    else .ok ()

/-- Sequencing of two validation blocks: if the first raises, the second
never runs. -/
def andThenE (a b : Except PyErr Unit) : Except PyErr Unit :=
  match a with
  | .error e => .error e
  | .ok _ => b

@[simp] theorem andThenE_ok (b : Except PyErr Unit) : andThenE (.ok ()) b = b := rfl

@[simp] theorem andThenE_error (e : PyErr) (b : Except PyErr Unit) :
    andThenE (.error e) b = .error e := rfl

/-- Turn an optional snake_case argument into the PascalCase keyword
argument added with `if x is not None: params[Key] = x`. -/
def optStrParam (key : String) : Option String → List (String × PVal)
  | none => []
  | some s => [(key, .vStr s)]

/-- Dispatch shape shared by the tools: if validation raised, the
exception propagates and no client call is made; otherwise the single
client call is issued. -/
def dispatch1 (v : Except PyErr Unit) (call : KCall) : List KCall × Except PyErr Unit :=
  match v with
  | .error e => ([], .error e)
  | .ok _ => ([call], .ok ())

theorem dispatch1_error_calls (v : Except PyErr Unit) (c : KCall) (e : PyErr)
    (h : (dispatch1 v c).2 = .error e) : (dispatch1 v c).1 = [] := by
  cases v with
  | error e' => rfl
  | ok a => simp [dispatch1] at h

/-! ## Tool embeddings (server.py)

Each tool is split into a `*_validate` function mirroring the validation
statements of the Python body in order, and the tool itself, which runs
the validation and then issues the boto3 call built from the same
parameter dictionary the Python body assembles. -/

def recordsRangeMsg : String :=
  "Number of records must be between " ++ toString MIN_RECORDS ++ " and " ++ toString MAX_RECORDS

/-- Validation statements of `put_records` (server.py lines 138-175).
`records` is the list of record payloads (contents are never inspected);
the `isinstance(records, list)` and `isinstance(..., str)` checks are
vacuous in this embedding. -/
def put_records_validate (records : List String) (stream_name stream_arn : Option String) :
    Except PyErr Unit :=
  -- if not records: raise ValueError('records is required')
  if records = [] then .error (.valueError "records is required")
  -- if len(records) < MIN_RECORDS or len(records) > MAX_RECORDS
  else if records.length < MIN_RECORDS ∨ records.length > MAX_RECORDS then
    .error (.valueError recordsRangeMsg)
  -- if stream_name is None and stream_arn is None
  else if stream_name = none ∧ stream_arn = none then
    .error (.valueError idRequiredMsg)
  else
    andThenE (check_stream_name stream_name) (check_stream_arn stream_arn)

/-- `put_records` (server.py lines 119-192): validate, build
`params = {'Records': records}` plus the optional identifiers, call
`kinesis.put_records(**params)`. -/
def put_records (records : List String) (stream_name stream_arn : Option String) :
    List KCall × Except PyErr Unit :=
  dispatch1 (put_records_validate records stream_name stream_arn)
    ⟨"put_records",
      [("Records", .vRecords records)]
        ++ optStrParam "StreamName" stream_name
        ++ optStrParam "StreamARN" stream_arn⟩

def shardIteratorLenMsg : String :=
  "shard_iterator length must be between " ++ toString MIN_LENGTH_SHARD_ITERATOR ++ " and "
    ++ toString MAX_LENGTH_SHARD_ITERATOR ++ " characters"

def limitRangeMsg : String :=
  "limit must be between " ++ toString MIN_LIMIT ++ " and " ++ toString MAX_LIMIT

/-- Validation statements of `get_records` (server.py lines 214-239).
Note the `stream_arn` block here checks only the length (no `isinstance`),
unlike the shared block used elsewhere; both are the same in this
embedding since the type check is vacuous. -/
def get_records_validate (shard_iterator : String) (limit : Option Int)
    (stream_arn : Option String) : Except PyErr Unit :=
  -- if not shard_iterator
  if shard_iterator = "" then .error (.valueError "shard_iterator is required")
  else if shard_iterator.length < MIN_LENGTH_SHARD_ITERATOR
      ∨ shard_iterator.length > MAX_LENGTH_SHARD_ITERATOR then
    .error (.valueError shardIteratorLenMsg)
  else match limit with
  | some l =>
    if l < MIN_LIMIT ∨ l > MAX_LIMIT then .error (.valueError limitRangeMsg)
    else check_stream_arn stream_arn
  | none => check_stream_arn stream_arn

/-- `get_records` (server.py lines 195-256). -/
def get_records (shard_iterator : String) (limit : Option Int) (stream_arn : Option String) :
    List KCall × Except PyErr Unit :=
  dispatch1 (get_records_validate shard_iterator limit stream_arn)
    ⟨"get_records",
      [("ShardIterator", .vStr shard_iterator)]
        ++ (match limit with | some l => [("Limit", .vInt l)] | none => [])
        ++ optStrParam "StreamARN" stream_arn⟩

def tagsCountMsg : String := "Number of tags cannot exceed " ++ toString MAX_TAGS_COUNT

def tagKeyLenMsg : String :=
  "Tag key length must be between " ++ toString MIN_TAG_KEY_LENGTH ++ " and "
    ++ toString MAX_TAG_KEY_LENGTH ++ " characters"

def tagValueLenMsg : String :=
  "Tag value length cannot exceed " ++ toString MAX_TAG_VALUE_LENGTH ++ " characters"

/-- The `for key, value in tags.items():` loop body shared verbatim by
`create_stream` (lines 321-333) and `add_tags_to_stream` (lines 627-637):
type check (vacuous), key length between 1 and 128, value length at most
256. -/
def check_tag_entries : List (String × String) → Except PyErr Unit
  | [] => .ok ()
  | (key, value) :: rest =>
    if key.length < MIN_TAG_KEY_LENGTH ∨ key.length > MAX_TAG_KEY_LENGTH then
      .error (.valueError tagKeyLenMsg)
    else if value.length > MAX_TAG_VALUE_LENGTH then
      .error (.valueError tagValueLenMsg)
    else check_tag_entries rest

def shardCountRangeMsg : String :=
  "shard_count must be between 1 and " ++ toString MAX_SHARDS_PER_STREAM

/-- Validation statements of `create_stream` (server.py lines 280-333).
Order as in the source: presence, type (vacuous), length, character
class, `aws:` prefix, then shard_count, stream_mode_details type
(vacuous), then the tag checks. -/
def create_stream_validate (stream_name : String) (shard_count : Option Int)
    (tags : Option (List (String × String))) : Except PyErr Unit :=
  if stream_name = "" then .error (.valueError "stream_name is required")
  else if stream_name.length < MIN_STREAM_NAME_LENGTH
      ∨ stream_name.length > MAX_STREAM_NAME_LENGTH then
    .error (.valueError streamNameLenMsg)
  else if reMatchNamePattern stream_name = false then
    .error (.valueError streamNameCharsMsg)
  else if pyStartsWith (pyLower stream_name) "aws:" then
    .error (.valueError "stream_name cannot start with \"aws:\"")
  else
    andThenE
      (match shard_count with
       | some c =>
         if c < MIN_SHARDS_PER_STREAM ∨ c > MAX_SHARDS_PER_STREAM then
           .error (.valueError shardCountRangeMsg)
         else .ok ()
       | none => .ok ())
      (match tags with
       | some ts =>
         if ts.length > MAX_TAGS_COUNT then .error (.valueError tagsCountMsg)
         else check_tag_entries ts
       | none => .ok ())

/-- `create_stream` (server.py lines 259-352).  After validation the code
evaluates `stream_mode_details.get('StreamMode')`; when the caller passed
`stream_mode_details=None` this raises `AttributeError` (not a
validation error) before the client call. -/
def create_stream (stream_name : String) (shard_count : Option Int)
    (stream_mode_details : Option (List (String × String)))
    (tags : Option (List (String × String))) : List KCall × Except PyErr Unit :=
  match create_stream_validate stream_name shard_count tags with
  | .error e => ([], .error e)
  | .ok _ =>
    match stream_mode_details with
    | none =>
      ([], .error (.otherError "AttributeError: NoneType object has no attribute get"))
    | some smd =>
      ([⟨"create_stream",
          [("StreamName", .vStr stream_name), ("StreamModeDetails", .vDict smd)]
            ++ (if smd.lookup "StreamMode" = some STREAM_MODE_PROVISIONED then
                  [("ShardCount", .vInt (shard_count.getD DEFAULT_SHARD_COUNT))]
                else [])
            ++ (match tags with | some ts => [("Tags", .vDict ts)] | none => [])⟩],
        .ok ())

def exclusiveStartStreamNameLenMsg : String :=
  "exclusive_start_stream_name length must be between " ++ toString MIN_STREAM_NAME_LENGTH
    ++ " and " ++ toString MAX_STREAM_NAME_LENGTH ++ " characters"

def listStreamsLimitMsg : String :=
  "limit must be between 1 and " ++ toString DEFAULT_STREAM_LIMIT

/-- Validation statements of `list_streams` (server.py lines 374-407).
The type checks are vacuous; `next_token` is otherwise unvalidated. -/
def list_streams_validate (exclusive_start_stream_name : Option String)
    (limit : Option Int) (next_token : Option String) : Except PyErr Unit :=
  andThenE
    (match exclusive_start_stream_name with
     | some s =>
       if s.length < MIN_STREAM_NAME_LENGTH ∨ s.length > MAX_STREAM_NAME_LENGTH then
         .error (.valueError exclusiveStartStreamNameLenMsg)
       else .ok ()
     | none => .ok ())
    (match limit with
     | some l =>
       if l < 1 ∨ l > DEFAULT_STREAM_LIMIT then .error (.valueError listStreamsLimitMsg)
       else .ok ()
     | none => .ok ())

/-- `list_streams` (server.py lines 355-413).  Params are populated inside
the validation flow; the mapping forwarded is the same. -/
def list_streams (exclusive_start_stream_name : Option String) (limit : Option Int)
    (next_token : Option String) : List KCall × Except PyErr Unit :=
  dispatch1 (list_streams_validate exclusive_start_stream_name limit next_token)
    ⟨"list_streams",
      optStrParam "ExclusiveStartStreamName" exclusive_start_stream_name
        ++ (match limit with | some l => [("Limit", .vInt l)] | none => [])
        ++ optStrParam "NextToken" next_token⟩

/-- Validation statements of `describe_stream_summary` (server.py lines
433-460). -/
def describe_stream_summary_validate (stream_name stream_arn : Option String) :
    Except PyErr Unit :=
  if stream_name = none ∧ stream_arn = none then .error (.valueError idRequiredMsg)
  else andThenE (check_stream_name stream_name) (check_stream_arn stream_arn)

/-- `describe_stream_summary` (server.py lines 416-470).  After validation
the body initialises `params: DescribeStreamSummaryInput = {}` (line 463)
and calls `kinesis.describe_stream_summary(**params)` (line 467) without
ever inserting `StreamName` or `StreamARN` into `params`: the call is
issued with an empty keyword-argument mapping. -/
def describe_stream_summary (stream_name stream_arn : Option String) :
    List KCall × Except PyErr Unit :=
  dispatch1 (describe_stream_summary_validate stream_name stream_arn)
    ⟨"describe_stream_summary", []⟩

def shardIdLenMsg : String :=
  "shard_id length must be between " ++ toString MIN_SHARD_ID_LENGTH ++ " and "
    ++ toString MAX_SHARD_ID_LENGTH ++ " characters"

def shardIdCharsMsg : String :=
  "shard_id can only contain alphanumeric characters, underscores, periods, and hyphens"

/-- Rendering of the Python set in the f-string
`f'shard_iterator_type must be one of {VALID_SHARD_ITERATOR_TYPES}'`
(set iteration order is unspecified in Python; element order is
immaterial to the claims, which only require the set members to be
named). -/
def renderStrSet (l : List String) : String :=
  "\x7b" ++ String.intercalate ", " l ++ "\x7d"

def invalidIteratorTypeMsg : String :=
  "shard_iterator_type must be one of " ++ renderStrSet VALID_SHARD_ITERATOR_TYPES

def seqNumRequiredMsg : String :=
  "starting_sequence_number is required for AT_SEQUENCE_NUMBER and AFTER_SEQUENCE_NUMBER shard iterator types"

def timestampRequiredMsg : String :=
  "timestamp is required for AT_TIMESTAMP shard iterator type"

/-- Validation statements of `get_shard_iterator` (server.py lines
498-561), in source order: shard_id presence / type / length / character
class; membership of `shard_iterator_type` in the valid set; stream
identification; stream_name block; stream_arn block; conditional
`starting_sequence_number` requirement; conditional `timestamp`
requirement.  `timestamp` is embedded as an optional string (the
`isinstance(timestamp, (datetime, str))` check is vacuous). -/
def get_shard_iterator_validate (shard_id : String) (shard_iterator_type : String)
    (stream_name stream_arn : Option String)
    (starting_sequence_number : Option String) (timestamp : Option String) :
    Except PyErr Unit :=
  if shard_id = "" then .error (.valueError "shard_id is required")
  else if shard_id.length < MIN_SHARD_ID_LENGTH ∨ shard_id.length > MAX_SHARD_ID_LENGTH then
    .error (.valueError shardIdLenMsg)
  else if reMatchNamePattern shard_id = false then
    .error (.valueError shardIdCharsMsg)
  else if ¬ VALID_SHARD_ITERATOR_TYPES.contains shard_iterator_type then
    .error (.valueError invalidIteratorTypeMsg)
  else if stream_name = none ∧ stream_arn = none then
    .error (.valueError idRequiredMsg)
  else
    andThenE (check_stream_name stream_name) <|
    andThenE (check_stream_arn stream_arn) <|
    if (shard_iterator_type = "AT_SEQUENCE_NUMBER"
          ∨ shard_iterator_type = "AFTER_SEQUENCE_NUMBER")
        ∧ starting_sequence_number = none then
      .error (.valueError seqNumRequiredMsg)
    else if shard_iterator_type = "AT_TIMESTAMP" ∧ timestamp = none then
      .error (.valueError timestampRequiredMsg)
    else .ok ()

/-- `get_shard_iterator` (server.py lines 473-585). -/
def get_shard_iterator (shard_id : String) (shard_iterator_type : String)
    (stream_name stream_arn : Option String)
    (starting_sequence_number : Option String) (timestamp : Option String) :
    List KCall × Except PyErr Unit :=
  dispatch1
    (get_shard_iterator_validate shard_id shard_iterator_type stream_name stream_arn
      starting_sequence_number timestamp)
    ⟨"get_shard_iterator",
      [("ShardId", .vStr shard_id), ("ShardIteratorType", .vStr shard_iterator_type)]
        ++ optStrParam "StreamName" stream_name
        ++ optStrParam "StreamARN" stream_arn
        ++ optStrParam "StartingSequenceNumber" starting_sequence_number
        ++ optStrParam "Timestamp" timestamp⟩

/-- Validation statements of `add_tags_to_stream` (server.py lines
612-637): stream identification first, then the tag checks.  Note the
identifiers themselves are not length- or format-validated in this
tool. -/
def add_tags_to_stream_validate (tags : List (String × String))
    (stream_name stream_arn : Option String) : Except PyErr Unit :=
  if stream_name = none ∧ stream_arn = none then .error (.valueError idRequiredMsg)
  -- if not tags
  else if tags = [] then .error (.valueError "tags is required")
  else if tags.length > MAX_TAGS_COUNT then .error (.valueError tagsCountMsg)
  else check_tag_entries tags

/-- `add_tags_to_stream` (server.py lines 593-653). -/
def add_tags_to_stream (tags : List (String × String))
    (stream_name stream_arn : Option String) : List KCall × Except PyErr Unit :=
  dispatch1 (add_tags_to_stream_validate tags stream_name stream_arn)
    ⟨"add_tags_to_stream",
      [("Tags", .vDict tags)]
        ++ optStrParam "StreamName" stream_name
        ++ optStrParam "StreamARN" stream_arn⟩

def exclusiveStartShardIdCharsMsg : String :=
  "exclusive_start_shard_id can only contain alphanumeric characters, underscores, periods, and hyphens"

def exclusiveStartShardIdLenMsg : String :=
  "exclusive_start_shard_id length must be between " ++ toString MIN_SHARD_ID_LENGTH
    ++ " and " ++ toString MAX_SHARD_ID_LENGTH ++ " characters"

/-- The `if exclusive_start_shard_id is not None:` block shared by
`describe_stream` (lines 715-729) and `list_shards` (lines 1193-1207):
type check (vacuous), character class, then length. -/
def check_exclusive_start_shard_id : Option String → Except PyErr Unit
  | none => .ok ()
  | some s =>
    if reMatchNamePattern s = false then
      .error (.valueError exclusiveStartShardIdCharsMsg)
    else if s.length < MIN_SHARD_ID_LENGTH ∨ s.length > MAX_SHARD_ID_LENGTH then
      .error (.valueError exclusiveStartShardIdLenMsg)
    else .ok ()

/-- Validation statements of `describe_stream` (server.py lines
677-729). -/
def describe_stream_validate (stream_name stream_arn : Option String)
    (limit : Option Int) (exclusive_start_shard_id : Option String) :
    Except PyErr Unit :=
  if stream_name = none ∧ stream_arn = none then .error (.valueError idRequiredMsg)
  else
    andThenE (check_stream_name stream_name) <|
    andThenE (check_stream_arn stream_arn) <|
    andThenE
      (match limit with
       | some l =>
         if l < MIN_LIMIT ∨ l > MAX_LIMIT then .error (.valueError limitRangeMsg)
         else .ok ()
       | none => .ok ())
      (check_exclusive_start_shard_id exclusive_start_shard_id)

/-- `describe_stream` (server.py lines 656-748). -/
def describe_stream (stream_name stream_arn : Option String) (limit : Option Int)
    (exclusive_start_shard_id : Option String) : List KCall × Except PyErr Unit :=
  dispatch1
    (describe_stream_validate stream_name stream_arn limit exclusive_start_shard_id)
    ⟨"describe_stream",
      optStrParam "StreamName" stream_name
        ++ optStrParam "StreamARN" stream_arn
        ++ (match limit with | some l => [("Limit", .vInt l)] | none => [])
        ++ optStrParam "ExclusiveStartShardId" exclusive_start_shard_id⟩

/-- Validation statements of `describe_stream_consumer` (server.py lines
770-791).  Python truthiness (`not x`) treats both `None` and the empty
string as missing.  `consumer_arn` is never validated. -/
def describe_stream_consumer_validate (consumer_name stream_arn : Option String) :
    Except PyErr Unit :=
  if strFalsy consumer_name ∧ strFalsy stream_arn then
    .error (.valueError "Either consumer_name or stream_arn must be provided")
  else if strFalsy consumer_name then .error (.valueError "consumer_name is required")
  else if strFalsy stream_arn then .error (.valueError "stream_arn is required")
  else
    let sa := stream_arn.getD ""
    if sa.length < MIN_STREAM_ARN_LENGTH ∨ sa.length > MAX_STREAM_ARN_LENGTH then
      .error (.valueError streamArnLenMsg)
    else .ok ()

/-- `describe_stream_consumer` (server.py lines 751-807): the parameter
mapping receives `ConsumerName`, `StreamARN` and `ConsumerARN` whenever
the respective argument is not `None`; `consumer_arn` is forwarded
without any validation. -/
def describe_stream_consumer (consumer_name stream_arn consumer_arn : Option String) :
    List KCall × Except PyErr Unit :=
  dispatch1 (describe_stream_consumer_validate consumer_name stream_arn)
    ⟨"describe_stream_consumer",
      optStrParam "ConsumerName" consumer_name
        ++ optStrParam "StreamARN" stream_arn
        ++ optStrParam "ConsumerARN" consumer_arn⟩

def maxResultsRangeMsg : String :=
  "max_results must be between " ++ toString MIN_RESULTS_PER_STREAM ++ " and "
    ++ toString MAX_RESULTS_PER_STREAM

/-- Validation statements of `list_stream_consumers` (server.py lines
831-856). -/
def list_stream_consumers_validate (stream_arn : String) (next_token : Option String)
    (max_results : Option Int) : Except PyErr Unit :=
  if stream_arn = "" then .error (.valueError "stream_arn is required")
  else if stream_arn.length < MIN_STREAM_ARN_LENGTH
      ∨ stream_arn.length > MAX_STREAM_ARN_LENGTH then
    .error (.valueError streamArnLenMsg)
  else match max_results with
  | some m =>
    if m < MIN_RESULTS_PER_STREAM ∨ m > MAX_RESULTS_PER_STREAM then
      .error (.valueError maxResultsRangeMsg)
    else .ok ()
  | none => .ok ()

/-- `list_stream_consumers` (server.py lines 810-874).
`stream_creation_time_stamp` is embedded as an optional string. -/
def list_stream_consumers (stream_arn : String) (next_token : Option String)
    (stream_creation_time_stamp : Option String) (max_results : Option Int) :
    List KCall × Except PyErr Unit :=
  dispatch1 (list_stream_consumers_validate stream_arn next_token max_results)
    ⟨"list_stream_consumers",
      [("StreamARN", .vStr stream_arn)]
        ++ optStrParam "NextToken" next_token
        ++ optStrParam "StreamCreationTimestamp" stream_creation_time_stamp
        ++ (match max_results with | some m => [("MaxResults", .vInt m)] | none => [])⟩

/-- Validation statements of `list_tags_for_resource` (server.py lines
890-900).  The error messages say `stream_arn` although the argument is
`resource_arn` (verbatim from the source). -/
def list_tags_for_resource_validate (resource_arn : String) : Except PyErr Unit :=
  if resource_arn = "" then .error (.valueError "stream_arn is required")
  else if resource_arn.length < MIN_STREAM_ARN_LENGTH
      ∨ resource_arn.length > MAX_STREAM_ARN_LENGTH then
    .error (.valueError streamArnLenMsg)
  else .ok ()

/-- `list_tags_for_resource` (server.py lines 877-909). -/
def list_tags_for_resource (resource_arn : String) : List KCall × Except PyErr Unit :=
  dispatch1 (list_tags_for_resource_validate resource_arn)
    ⟨"list_tags_for_resource", [("ResourceARN", .vStr resource_arn)]⟩

/-- `describe_limits` (server.py lines 912-932): no validation at all. -/
def describe_limits : List KCall × Except PyErr Unit :=
  ([⟨"describe_limits", []⟩], .ok ())

def metricsCountMsg : String :=
  "Number of shard_level_metrics must be between " ++ toString MIN_SHARD_LEVEL_METRICS
    ++ " and " ++ toString MAX_SHARD_LEVEL_METRICS

/-- The `for _ in shard_level_metrics:` membership loop of
`enable_enhanced_monitoring` (server.py lines 968-972). -/
def check_metrics : List String → Except PyErr Unit
  | [] => .ok ()
  | m :: rest =>
    if ¬ VALID_SHARD_LEVEL_METRICS.contains m then
      .error (.valueError ("Invalid metric in shard_level_metrics: " ++ m
        ++ ". Must be one of " ++ renderStrSet VALID_SHARD_LEVEL_METRICS))
    else check_metrics rest

/-- Validation statements of `enable_enhanced_monitoring` (server.py
lines 954-1001). -/
def enable_enhanced_monitoring_validate (shard_level_metrics : List String)
    (stream_name stream_arn : Option String) : Except PyErr Unit :=
  if shard_level_metrics = [] then .error (.valueError "shard_level_metrics is required")
  else if shard_level_metrics.length < MIN_SHARD_LEVEL_METRICS
      ∨ shard_level_metrics.length > MAX_SHARD_LEVEL_METRICS then
    .error (.valueError metricsCountMsg)
  else
    andThenE (check_metrics shard_level_metrics) <|
    if stream_name = none ∧ stream_arn = none then .error (.valueError idRequiredMsg)
    else andThenE (check_stream_name stream_name) (check_stream_arn stream_arn)

/-- `enable_enhanced_monitoring` (server.py lines 935-1016). -/
def enable_enhanced_monitoring (shard_level_metrics : List String)
    (stream_name stream_arn : Option String) : List KCall × Except PyErr Unit :=
  dispatch1
    (enable_enhanced_monitoring_validate shard_level_metrics stream_name stream_arn)
    ⟨"enable_enhanced_monitoring",
      [("ShardLevelMetrics", .vStrList shard_level_metrics)]
        ++ optStrParam "StreamName" stream_name
        ++ optStrParam "StreamARN" stream_arn⟩

def resourceArnLenMsg : String :=
  "resource_arn length must be between " ++ toString MIN_STREAM_ARN_LENGTH ++ " and "
    ++ toString MAX_STREAM_ARN_LENGTH ++ " characters"

/-- Validation statements of `get_resource_policy` (server.py lines
1034-1044). -/
def get_resource_policy_validate (resource_arn : String) : Except PyErr Unit :=
  if resource_arn = "" then .error (.valueError "resource_arn is required")
  else if resource_arn.length < MIN_STREAM_ARN_LENGTH
      ∨ resource_arn.length > MAX_STREAM_ARN_LENGTH then
    .error (.valueError resourceArnLenMsg)
  else .ok ()

/-- `get_resource_policy` (server.py lines 1019-1053). -/
def get_resource_policy (resource_arn : String) : List KCall × Except PyErr Unit :=
  dispatch1 (get_resource_policy_validate resource_arn)
    ⟨"get_resource_policy", [("ResourceARN", .vStr resource_arn)]⟩

/-- The argument validation of `increase_stream_retention_period`
(server.py lines 1075-1106): `isinstance` on the hours (vacuous), stream
identification, stream_name block, stream_arn block.  The
retention-period comparison is NOT part of this phase: it happens only
after the `describe_stream` service call (see below). -/
def increase_stream_retention_period_validate (retention_period_hours : Int)
    (stream_name stream_arn : Option String) : Except PyErr Unit :=
  if stream_name = none ∧ stream_arn = none then .error (.valueError idRequiredMsg)
  else andThenE (check_stream_name stream_name) (check_stream_arn stream_arn)

def retentionMsg (current : Int) : String :=
  "retention_period_hours must be greater than the current retention period of "
    ++ toString current ++ " hours"

/-- `increase_stream_retention_period` (server.py lines 1056-1137).
After the argument validation the body issues
`kinesis.describe_stream(**describe_params)` (line 1115) to read the
current retention period, and only then raises `ValueError` when
`retention_period_hours <= current_retention_period` (lines 1119-1122);
on success it issues the `increase_stream_retention_period` call.
`current_retention` is the value the service reports. -/
def increase_stream_retention_period (retention_period_hours : Int)
    (stream_name stream_arn : Option String) (current_retention : Int) :
    List KCall × Except PyErr Unit :=
  match increase_stream_retention_period_validate retention_period_hours
      stream_name stream_arn with
  | .error e => ([], .error e)
  | .ok _ =>
    let describe_params :=
      optStrParam "StreamName" stream_name ++ optStrParam "StreamARN" stream_arn
    let describe_call : KCall := ⟨"describe_stream", describe_params⟩
    if retention_period_hours ≤ current_retention then
      ([describe_call], .error (.valueError (retentionMsg current_retention)))
    else
      ([describe_call,
        ⟨"increase_stream_retention_period",
          ("RetentionPeriodHours", .vInt retention_period_hours) :: describe_params⟩],
        .ok ())

/-- Validation statements of `list_shards` (server.py lines 1163-1222). -/
def list_shards_validate (exclusive_start_shard_id : Option String)
    (stream_name stream_arn : Option String) (next_token : Option String)
    (max_results : Option Int) : Except PyErr Unit :=
  if stream_name = none ∧ stream_arn = none then .error (.valueError idRequiredMsg)
  else
    andThenE (check_stream_name stream_name) <|
    andThenE (check_stream_arn stream_arn) <|
    andThenE (check_exclusive_start_shard_id exclusive_start_shard_id)
      (match max_results with
       | some m =>
         if m < MIN_RESULTS_PER_STREAM ∨ m > MAX_RESULTS_PER_STREAM then
           .error (.valueError maxResultsRangeMsg)
         else .ok ()
       | none => .ok ())

/-- `list_shards` (server.py lines 1140-1246). -/
def list_shards (exclusive_start_shard_id : Option String)
    (stream_name stream_arn : Option String) (next_token : Option String)
    (max_results : Option Int) : List KCall × Except PyErr Unit :=
  dispatch1
    (list_shards_validate exclusive_start_shard_id stream_name stream_arn next_token
      max_results)
    ⟨"list_shards",
      optStrParam "ExclusiveStartShardId" exclusive_start_shard_id
        ++ optStrParam "StreamName" stream_name
        ++ optStrParam "StreamARN" stream_arn
        ++ optStrParam "NextToken" next_token
        ++ (match max_results with | some m => [("MaxResults", .vInt m)] | none => [])⟩

/-- Validation statements of `tag_resource` (server.py lines 1266-1280):
resource_arn presence / type (vacuous) / length, and `isinstance(tags,
dict)` (vacuous).  There is NO tag-count check and no per-entry check in
this tool. -/
def tag_resource_validate (resource_arn : String) (tags : List (String × String)) :
    Except PyErr Unit :=
  if resource_arn = "" then .error (.valueError "resource_arn is required")
  else if resource_arn.length < MIN_STREAM_ARN_LENGTH
      ∨ resource_arn.length > MAX_STREAM_ARN_LENGTH then
    .error (.valueError resourceArnLenMsg)
  else .ok ()

/-- `tag_resource` (server.py lines 1249-1292). -/
def tag_resource (resource_arn : String) (tags : List (String × String)) :
    List KCall × Except PyErr Unit :=
  dispatch1 (tag_resource_validate resource_arn tags)
    ⟨"tag_resource", [("ResourceARN", .vStr resource_arn), ("Tags", .vDict tags)]⟩

/-- Validation statements of `list_tags_for_stream` (server.py lines
1316-1356). -/
def list_tags_for_stream_validate (exclusive_start_tag_key : Option String)
    (stream_name stream_arn : Option String) (limit : Option Int) :
    Except PyErr Unit :=
  if stream_name = none ∧ stream_arn = none then .error (.valueError idRequiredMsg)
  else
    andThenE (check_stream_name stream_name) <|
    andThenE (check_stream_arn stream_arn)
      (match limit with
       | some l =>
         if l < MIN_LIMIT ∨ l > MAX_LIMIT then .error (.valueError limitRangeMsg)
         else .ok ()
       | none => .ok ())

/-- `list_tags_for_stream` (server.py lines 1295-1373). -/
def list_tags_for_stream (exclusive_start_tag_key : Option String)
    (stream_name stream_arn : Option String) (limit : Option Int) :
    List KCall × Except PyErr Unit :=
  dispatch1
    (list_tags_for_stream_validate exclusive_start_tag_key stream_name stream_arn limit)
    ⟨"list_tags_for_stream",
      optStrParam "ExclusiveStartTagKey" exclusive_start_tag_key
        ++ optStrParam "StreamName" stream_name
        ++ optStrParam "StreamARN" stream_arn
        ++ (match limit with | some l => [("Limit", .vInt l)] | none => [])⟩

/-- Validation statements of `put_resource_policy` (server.py lines
1393-1410). -/
def put_resource_policy_validate (resource_arn : String) (policy : String) :
    Except PyErr Unit :=
  if resource_arn = "" then .error (.valueError "resource_arn is required")
  else if resource_arn.length < MIN_STREAM_ARN_LENGTH
      ∨ resource_arn.length > MAX_STREAM_ARN_LENGTH then
    .error (.valueError resourceArnLenMsg)
  else if policy = "" then .error (.valueError "policy is required")
  else .ok ()

/-- `put_resource_policy` (server.py lines 1376-1422). -/
def put_resource_policy (resource_arn : String) (policy : String) :
    List KCall × Except PyErr Unit :=
  dispatch1 (put_resource_policy_validate resource_arn policy)
    ⟨"put_resource_policy",
      [("ResourceARN", .vStr resource_arn), ("Policy", .vStr policy)]⟩

/-! ## Validity predicates and helper lemmas -/

def validStreamName (s : String) : Prop :=
  s.data.all isNameChar = true ∧ 1 ≤ s.length ∧ s.length ≤ MAX_STREAM_NAME_LENGTH

def validStreamArn (s : String) : Prop :=
  1 ≤ s.length ∧ s.length ≤ MAX_STREAM_ARN_LENGTH

theorem check_stream_name_ok (s : String) (h1 : s.data.all isNameChar = true)
    (h2 : 1 ≤ s.length) (h3 : s.length ≤ MAX_STREAM_NAME_LENGTH) :
    check_stream_name (some s) = .ok () := by
  have hc1 : ¬ (reMatchNamePattern s = false) := by
    simp [reMatchNamePattern, h1, h2]
  have hc2 : ¬ (s.length < MIN_STREAM_NAME_LENGTH ∨ s.length > MAX_STREAM_NAME_LENGTH) := by
    unfold MIN_STREAM_NAME_LENGTH MAX_STREAM_NAME_LENGTH at *
    omega
  simp only [check_stream_name]
  rw [if_neg hc1, if_neg hc2]

theorem check_stream_name_too_long (s : String) (h1 : s.data.all isNameChar = true)
    (h2 : s.length > MAX_STREAM_NAME_LENGTH) :
    check_stream_name (some s) = .error (.valueError streamNameLenMsg) := by
  have hc1 : ¬ (reMatchNamePattern s = false) := by
    have : 1 ≤ s.length := by unfold MAX_STREAM_NAME_LENGTH at h2; omega
    simp [reMatchNamePattern, h1, this]
  have hc2 : s.length < MIN_STREAM_NAME_LENGTH ∨ s.length > MAX_STREAM_NAME_LENGTH :=
    Or.inr h2
  simp only [check_stream_name]
  rw [if_neg hc1, if_pos hc2]

theorem check_stream_arn_ok (s : String)
    (h2 : 1 ≤ s.length) (h3 : s.length ≤ MAX_STREAM_ARN_LENGTH) :
    check_stream_arn (some s) = .ok () := by
  have hc : ¬ (s.length < MIN_STREAM_ARN_LENGTH ∨ s.length > MAX_STREAM_ARN_LENGTH) := by
    unfold MIN_STREAM_ARN_LENGTH MAX_STREAM_ARN_LENGTH at *
    omega
  simp only [check_stream_arn]
  rw [if_neg hc]

theorem check_stream_arn_too_long (s : String) (h : s.length > MAX_STREAM_ARN_LENGTH) :
    check_stream_arn (some s) = .error (.valueError streamArnLenMsg) := by
  simp only [check_stream_arn]
  rw [if_pos (Or.inr h)]

theorem check_essi_ok (s : String) (h1 : s.data.all isNameChar = true)
    (h2 : 1 ≤ s.length) (h3 : s.length ≤ MAX_SHARD_ID_LENGTH) :
    check_exclusive_start_shard_id (some s) = .ok () := by
  have hc1 : ¬ (reMatchNamePattern s = false) := by
    simp [reMatchNamePattern, h1, h2]
  have hc2 : ¬ (s.length < MIN_SHARD_ID_LENGTH ∨ s.length > MAX_SHARD_ID_LENGTH) := by
    unfold MIN_SHARD_ID_LENGTH MAX_SHARD_ID_LENGTH at *
    omega
  simp only [check_exclusive_start_shard_id]
  rw [if_neg hc1, if_neg hc2]

theorem check_essi_too_long (s : String) (h1 : s.data.all isNameChar = true)
    (h2 : s.length > MAX_SHARD_ID_LENGTH) :
    check_exclusive_start_shard_id (some s)
      = .error (.valueError exclusiveStartShardIdLenMsg) := by
  have hc1 : ¬ (reMatchNamePattern s = false) := by
    have : 1 ≤ s.length := by unfold MAX_SHARD_ID_LENGTH at h2; omega
    simp [reMatchNamePattern, h1, this]
  simp only [check_exclusive_start_shard_id]
  rw [if_neg hc1, if_pos (Or.inr h2)]

def wellFormedTag (kv : String × String) : Prop :=
  1 ≤ kv.1.length ∧ kv.1.length ≤ MAX_TAG_KEY_LENGTH ∧ kv.2.length ≤ MAX_TAG_VALUE_LENGTH

instance (kv : String × String) : Decidable (wellFormedTag kv) := by
  unfold wellFormedTag
  infer_instance

theorem check_tag_entries_ok (ts : List (String × String))
    (h : ∀ kv ∈ ts, wellFormedTag kv) : check_tag_entries ts = .ok () := by
  induction ts with
  | nil => rfl
  | cons kv rest ih =>
    obtain ⟨key, value⟩ := kv
    obtain ⟨hk1, hk2, hv⟩ := h (key, value) (List.mem_cons_self _ rest)
    have hrest := ih (fun x hx => h x (List.mem_cons_of_mem _ hx))
    dsimp only at hk1 hk2 hv
    simp only [check_tag_entries]
    rw [if_neg, if_neg]
    · exact hrest
    · unfold MAX_TAG_VALUE_LENGTH at *
      omega
    · unfold MIN_TAG_KEY_LENGTH MAX_TAG_KEY_LENGTH at *
      omega

/-! ## Per-operation validation-success lemmas

Each lemma shows the full validation of an operation succeeding when the
identifier blocks succeed and the remaining (concrete) arguments are
well-formed. -/

theorem put_records_validate_ok (records : List String) (sn sa : Option String)
    (hr : records ≠ []) (hlen : MIN_RECORDS ≤ records.length ∧ records.length ≤ MAX_RECORDS)
    (hid : ¬ (sn = none ∧ sa = none))
    (hn : check_stream_name sn = .ok ()) (ha : check_stream_arn sa = .ok ()) :
    put_records_validate records sn sa = .ok () := by
  simp only [put_records_validate]
  rw [if_neg hr, if_neg (by omega), if_neg hid, hn, andThenE_ok, ha]

theorem describe_stream_summary_validate_ok (sn sa : Option String)
    (hid : ¬ (sn = none ∧ sa = none))
    (hn : check_stream_name sn = .ok ()) (ha : check_stream_arn sa = .ok ()) :
    describe_stream_summary_validate sn sa = .ok () := by
  simp only [describe_stream_summary_validate]
  rw [if_neg hid, hn, andThenE_ok, ha]

theorem describe_stream_validate_ok (sn sa : Option String) (limit : Option Int)
    (essi : Option String) (hid : ¬ (sn = none ∧ sa = none))
    (hn : check_stream_name sn = .ok ()) (ha : check_stream_arn sa = .ok ())
    (hl : (match limit with
           | some l => if l < MIN_LIMIT ∨ l > MAX_LIMIT then
               Except.error (PyErr.valueError limitRangeMsg) else Except.ok ()
           | none => Except.ok ()) = Except.ok ())
    (he : check_exclusive_start_shard_id essi = .ok ()) :
    describe_stream_validate sn sa limit essi = .ok () := by
  simp only [describe_stream_validate]
  rw [if_neg hid, hn, andThenE_ok, ha, andThenE_ok, hl, andThenE_ok, he]

theorem get_shard_iterator_validate_trim_ok (sn sa : Option String)
    (hid : ¬ (sn = none ∧ sa = none))
    (hn : check_stream_name sn = .ok ()) (ha : check_stream_arn sa = .ok ()) :
    get_shard_iterator_validate "shardId-000000000001" "TRIM_HORIZON" sn sa none none
      = .ok () := by
  simp only [get_shard_iterator_validate]
  rw [if_neg (by decide), if_neg (by decide), if_neg (by decide), if_neg (by decide),
    if_neg hid, hn, andThenE_ok, ha, andThenE_ok]
  rfl

theorem add_tags_to_stream_validate_ok (tags : List (String × String))
    (sn sa : Option String) (hid : ¬ (sn = none ∧ sa = none)) (ht : tags ≠ [])
    (hc : ¬ tags.length > MAX_TAGS_COUNT) (hw : check_tag_entries tags = .ok ()) :
    add_tags_to_stream_validate tags sn sa = .ok () := by
  simp only [add_tags_to_stream_validate]
  rw [if_neg hid, if_neg ht, if_neg hc, hw]

theorem enable_enhanced_monitoring_validate_ok (sn sa : Option String)
    (hid : ¬ (sn = none ∧ sa = none))
    (hn : check_stream_name sn = .ok ()) (ha : check_stream_arn sa = .ok ()) :
    enable_enhanced_monitoring_validate ["All"] sn sa = .ok () := by
  simp only [enable_enhanced_monitoring_validate]
  rw [if_neg (by decide), if_neg (by decide)]
  have hm : check_metrics ["All"] = .ok () := rfl
  rw [hm, andThenE_ok, if_neg hid, hn, andThenE_ok, ha]

theorem increase_stream_retention_period_validate_ok (h : Int) (sn sa : Option String)
    (hid : ¬ (sn = none ∧ sa = none))
    (hn : check_stream_name sn = .ok ()) (ha : check_stream_arn sa = .ok ()) :
    increase_stream_retention_period_validate h sn sa = .ok () := by
  simp only [increase_stream_retention_period_validate]
  rw [if_neg hid, hn, andThenE_ok, ha]

theorem list_shards_validate_ok (essi : Option String) (sn sa : Option String)
    (nt : Option String) (mr : Option Int) (hid : ¬ (sn = none ∧ sa = none))
    (hn : check_stream_name sn = .ok ()) (ha : check_stream_arn sa = .ok ())
    (he : check_exclusive_start_shard_id essi = .ok ())
    (hm : (match mr with
           | some m => if m < MIN_RESULTS_PER_STREAM ∨ m > MAX_RESULTS_PER_STREAM then
               Except.error (PyErr.valueError maxResultsRangeMsg) else Except.ok ()
           | none => Except.ok ()) = Except.ok ()) :
    list_shards_validate essi sn sa nt mr = .ok () := by
  simp only [list_shards_validate]
  rw [if_neg hid, hn, andThenE_ok, ha, andThenE_ok, he, andThenE_ok, hm]

theorem list_tags_for_stream_validate_ok (estk : Option String) (sn sa : Option String)
    (limit : Option Int) (hid : ¬ (sn = none ∧ sa = none))
    (hn : check_stream_name sn = .ok ()) (ha : check_stream_arn sa = .ok ())
    (hl : (match limit with
           | some l => if l < MIN_LIMIT ∨ l > MAX_LIMIT then
               Except.error (PyErr.valueError limitRangeMsg) else Except.ok ()
           | none => Except.ok ()) = Except.ok ()) :
    list_tags_for_stream_validate estk sn sa limit = .ok () := by
  simp only [list_tags_for_stream_validate]
  rw [if_neg hid, hn, andThenE_ok, ha, andThenE_ok, hl]

/-! ## Claim theorems -/

/-- C1: For every tool wrapped by the exception-normalization decorator
`handle_exceptions`: on success it returns the wrapped function's result
unchanged; a `ValueError` or `TypeError` raised inside the tool always
propagates to the caller unmodified; any other exception is logged and
converted to a `None` return, unless the environment variable `TESTING`
equals `'true'`, in which case that exception propagates instead. -/
theorem handle_exceptions_spec (α : Type) (testing : Option String) (a : α) (m : String) :
    (handle_exceptions testing (.ok a)).2 = .ok (some a)
    ∧ (handle_exceptions (α := α) testing (.exn (.valueError m))).2 = .exn (.valueError m)
    ∧ (handle_exceptions (α := α) testing (.exn (.typeError m))).2 = .exn (.typeError m)
    ∧ (handle_exceptions (some "true") (.exn (.otherError m)) : List String × PyOutcome (Option α))
        = (["An error occurred: " ++ m], .exn (.otherError m))
    ∧ (testing ≠ some "true" →
        handle_exceptions (α := α) testing (.exn (.otherError m))
          = (["An error occurred: " ++ m], .ok none)) := by
  refine ⟨rfl, rfl, rfl, ?_, ?_⟩
  · simp [handle_exceptions]
  · intro h
    simp [handle_exceptions, h]

/-- C1 witness: the suppression branch at a concrete input. -/
theorem handle_exceptions_spec_witness :
    handle_exceptions (α := Nat) none (.exn (.otherError "boom"))
      = (["An error occurred: boom"], .ok none) :=
  (handle_exceptions_spec Nat none 0 "boom").2.2.2.2 (by simp)

/-- C9: For any function wrapped by the destructive-action guard
`confirm_destruction`: when the controlling environment flag lowercases to
`'false'` or `'no'`, the wrapped function is never invoked and the fixed
advisory message object is returned instead; for any other flag value,
including the flag being unset, the wrapped function executes normally and
its result is returned. -/
theorem confirm_destruction_spec (α : Type) (env : Option String) (f : Unit → α) :
    ((pyLower (env.getD "") = "false" ∨ pyLower (env.getD "") = "no") →
      confirm_destruction env f = .blocked destructionBlockedMessage)
    ∧ ((pyLower (env.getD "") ≠ "false" ∧ pyLower (env.getD "") ≠ "no") →
      confirm_destruction env f = .ran (f ()))
    ∧ confirm_destruction none f = .ran (f ()) := by
  refine ⟨?_, ?_, ?_⟩
  · intro h
    simp only [confirm_destruction]
    rw [if_pos h]
  · intro h
    simp only [confirm_destruction]
    rw [if_neg (by tauto)]
  · rfl

/-- C9 witness: a flag value lowercasing to `'false'` blocks with the
advisory message, and an unset flag runs the wrapped function. -/
theorem confirm_destruction_spec_witness :
    confirm_destruction (some "FALSE") (fun _ => (7 : Nat))
        = .blocked destructionBlockedMessage
    ∧ confirm_destruction (some "yes") (fun _ => (7 : Nat)) = .ran 7 :=
  ⟨(confirm_destruction_spec Nat (some "FALSE") (fun _ => 7)).1 (Or.inl (by decide)),
   (confirm_destruction_spec Nat (some "yes") (fun _ => 7)).2.1 (by decide)⟩

/-- C2: For every operation that identifies its target stream by
`stream_name`/`stream_arn` (put_records, describe_stream_summary,
describe_stream, get_shard_iterator, add_tags_to_stream,
enable_enhanced_monitoring, increase_stream_retention_period, list_shards,
list_tags_for_stream), the stream-identification check fails with a
`ValueError` when both `stream_name` and `stream_arn` are `None`, passes
when exactly one valid identifier is supplied, and also passes when both
valid identifiers are supplied (only at-least-one is enforced, not
exactly-one).  The other arguments are fixed to well-formed values so
that full validation succeeding witnesses the identification check
passing. -/
theorem stream_identification_spec (sn sa : String)
    (hn : validStreamName sn) (ha : validStreamArn sa) :
    (put_records_validate ["r"] none none = .error (.valueError idRequiredMsg)
      ∧ put_records_validate ["r"] (some sn) none = .ok ()
      ∧ put_records_validate ["r"] none (some sa) = .ok ()
      ∧ put_records_validate ["r"] (some sn) (some sa) = .ok ())
    ∧ (describe_stream_summary_validate none none = .error (.valueError idRequiredMsg)
      ∧ describe_stream_summary_validate (some sn) none = .ok ()
      ∧ describe_stream_summary_validate none (some sa) = .ok ()
      ∧ describe_stream_summary_validate (some sn) (some sa) = .ok ())
    ∧ (describe_stream_validate none none (some 100) none
          = .error (.valueError idRequiredMsg)
      ∧ describe_stream_validate (some sn) none (some 100) none = .ok ()
      ∧ describe_stream_validate none (some sa) (some 100) none = .ok ()
      ∧ describe_stream_validate (some sn) (some sa) (some 100) none = .ok ())
    ∧ (get_shard_iterator_validate "shardId-000000000001" "TRIM_HORIZON" none none none none
          = .error (.valueError idRequiredMsg)
      ∧ get_shard_iterator_validate "shardId-000000000001" "TRIM_HORIZON" (some sn) none
          none none = .ok ()
      ∧ get_shard_iterator_validate "shardId-000000000001" "TRIM_HORIZON" none (some sa)
          none none = .ok ()
      ∧ get_shard_iterator_validate "shardId-000000000001" "TRIM_HORIZON" (some sn)
          (some sa) none none = .ok ())
    ∧ (add_tags_to_stream_validate [("k", "v")] none none
          = .error (.valueError idRequiredMsg)
      ∧ add_tags_to_stream_validate [("k", "v")] (some sn) none = .ok ()
      ∧ add_tags_to_stream_validate [("k", "v")] none (some sa) = .ok ()
      ∧ add_tags_to_stream_validate [("k", "v")] (some sn) (some sa) = .ok ())
    ∧ (enable_enhanced_monitoring_validate ["All"] none none
          = .error (.valueError idRequiredMsg)
      ∧ enable_enhanced_monitoring_validate ["All"] (some sn) none = .ok ()
      ∧ enable_enhanced_monitoring_validate ["All"] none (some sa) = .ok ()
      ∧ enable_enhanced_monitoring_validate ["All"] (some sn) (some sa) = .ok ())
    ∧ (increase_stream_retention_period_validate 48 none none
          = .error (.valueError idRequiredMsg)
      ∧ increase_stream_retention_period_validate 48 (some sn) none = .ok ()
      ∧ increase_stream_retention_period_validate 48 none (some sa) = .ok ()
      ∧ increase_stream_retention_period_validate 48 (some sn) (some sa) = .ok ())
    ∧ (list_shards_validate none none none none (some 1000)
          = .error (.valueError idRequiredMsg)
      ∧ list_shards_validate none (some sn) none none (some 1000) = .ok ()
      ∧ list_shards_validate none none (some sa) none (some 1000) = .ok ()
      ∧ list_shards_validate none (some sn) (some sa) none (some 1000) = .ok ())
    ∧ (list_tags_for_stream_validate none none none none
          = .error (.valueError idRequiredMsg)
      ∧ list_tags_for_stream_validate none (some sn) none none = .ok ()
      ∧ list_tags_for_stream_validate none none (some sa) none = .ok ()
      ∧ list_tags_for_stream_validate none (some sn) (some sa) none = .ok ()) := by
  obtain ⟨h1, h2, h3⟩ := hn
  obtain ⟨h4, h5⟩ := ha
  have hcn := check_stream_name_ok sn h1 h2 h3
  have hca := check_stream_arn_ok sa h4 h5
  have hcnn : check_stream_name none = .ok () := rfl
  have hcan : check_stream_arn none = .ok () := rfl
  refine ⟨⟨rfl, ?_, ?_, ?_⟩, ⟨rfl, ?_, ?_, ?_⟩, ⟨rfl, ?_, ?_, ?_⟩, ⟨rfl, ?_, ?_, ?_⟩,
    ⟨rfl, ?_, ?_, ?_⟩, ⟨rfl, ?_, ?_, ?_⟩, ⟨rfl, ?_, ?_, ?_⟩, ⟨rfl, ?_, ?_, ?_⟩,
    ⟨rfl, ?_, ?_, ?_⟩⟩
  · exact put_records_validate_ok _ _ _ (by simp) (by simp [MIN_RECORDS, MAX_RECORDS])
      (by simp) hcn hcan
  · exact put_records_validate_ok _ _ _ (by simp) (by simp [MIN_RECORDS, MAX_RECORDS])
      (by simp) hcnn hca
  · exact put_records_validate_ok _ _ _ (by simp) (by simp [MIN_RECORDS, MAX_RECORDS])
      (by simp) hcn hca
  · exact describe_stream_summary_validate_ok _ _ (by simp) hcn hcan
  · exact describe_stream_summary_validate_ok _ _ (by simp) hcnn hca
  · exact describe_stream_summary_validate_ok _ _ (by simp) hcn hca
  · exact describe_stream_validate_ok _ _ _ _ (by simp) hcn hcan rfl rfl
  · exact describe_stream_validate_ok _ _ _ _ (by simp) hcnn hca rfl rfl
  · exact describe_stream_validate_ok _ _ _ _ (by simp) hcn hca rfl rfl
  · exact get_shard_iterator_validate_trim_ok _ _ (by simp) hcn hcan
  · exact get_shard_iterator_validate_trim_ok _ _ (by simp) hcnn hca
  · exact get_shard_iterator_validate_trim_ok _ _ (by simp) hcn hca
  · exact add_tags_to_stream_validate_ok _ _ _ (by simp) (by simp)
      (by simp [MAX_TAGS_COUNT]) rfl
  · exact add_tags_to_stream_validate_ok _ _ _ (by simp) (by simp)
      (by simp [MAX_TAGS_COUNT]) rfl
  · exact add_tags_to_stream_validate_ok _ _ _ (by simp) (by simp)
      (by simp [MAX_TAGS_COUNT]) rfl
  · exact enable_enhanced_monitoring_validate_ok _ _ (by simp) hcn hcan
  · exact enable_enhanced_monitoring_validate_ok _ _ (by simp) hcnn hca
  · exact enable_enhanced_monitoring_validate_ok _ _ (by simp) hcn hca
  · exact increase_stream_retention_period_validate_ok _ _ _ (by simp) hcn hcan
  · exact increase_stream_retention_period_validate_ok _ _ _ (by simp) hcnn hca
  · exact increase_stream_retention_period_validate_ok _ _ _ (by simp) hcn hca
  · exact list_shards_validate_ok _ _ _ _ _ (by simp) hcn hcan rfl rfl
  · exact list_shards_validate_ok _ _ _ _ _ (by simp) hcnn hca rfl rfl
  · exact list_shards_validate_ok _ _ _ _ _ (by simp) hcn hca rfl rfl
  · exact list_tags_for_stream_validate_ok _ _ _ _ (by simp) hcn hcan rfl
  · exact list_tags_for_stream_validate_ok _ _ _ _ (by simp) hcnn hca rfl
  · exact list_tags_for_stream_validate_ok _ _ _ _ (by simp) hcn hca rfl

/-- C2 witness: the identification cases at concrete identifiers. -/
theorem stream_identification_spec_witness :
    describe_stream_summary_validate (some "test") none = .ok ()
    ∧ describe_stream_summary_validate none
        (some "arn:aws:kinesis:us-west-2:123456789012:stream/test") = .ok ()
    ∧ describe_stream_summary_validate none none = .error (.valueError idRequiredMsg) :=
  have h := stream_identification_spec "test"
    "arn:aws:kinesis:us-west-2:123456789012:stream/test"
    (by refine ⟨by decide, by decide, by decide⟩)
    (by refine ⟨by decide, by decide⟩)
  ⟨h.2.1.2.1, h.2.1.2.2.1, h.2.1.1⟩

/-- Containment of a contiguous character sequence. -/
def charsContain (needle : List Char) : List Char → Bool
  | [] => needle.isEmpty
  | h :: t => needle.isPrefixOf (h :: t) || charsContain needle t

/-- `needle` occurs as a contiguous substring of `hay`. -/
def strMentions (hay needle : String) : Bool := charsContain needle.data hay.data

/-- C4: In `get_shard_iterator`, given an otherwise valid call (valid
`shard_id` and a stream identifier): `shard_iterator_type`
`AT_SEQUENCE_NUMBER` or `AFTER_SEQUENCE_NUMBER` with
`starting_sequence_number` `None` raises a `ValueError`; `AT_TIMESTAMP`
with `timestamp` `None` raises a `ValueError`; `TRIM_HORIZON` and
`LATEST` pass validation with both of those arguments `None`; and any
`shard_iterator_type` outside the five-member enumeration raises a
`ValueError` that names the allowed set (every member of the set occurs
in the message). -/
theorem get_shard_iterator_cross_field_spec (t : String)
    (ht : t ∉ VALID_SHARD_ITERATOR_TYPES) :
    get_shard_iterator_validate "shardId-000000000001" "AT_SEQUENCE_NUMBER" (some "test")
        none none none = .error (.valueError seqNumRequiredMsg)
    ∧ get_shard_iterator_validate "shardId-000000000001" "AFTER_SEQUENCE_NUMBER" (some "test")
        none none none = .error (.valueError seqNumRequiredMsg)
    ∧ get_shard_iterator_validate "shardId-000000000001" "AT_TIMESTAMP" (some "test")
        none none none = .error (.valueError timestampRequiredMsg)
    ∧ get_shard_iterator_validate "shardId-000000000001" "TRIM_HORIZON" (some "test")
        none none none = .ok ()
    ∧ get_shard_iterator_validate "shardId-000000000001" "LATEST" (some "test")
        none none none = .ok ()
    ∧ get_shard_iterator_validate "shardId-000000000001" t (some "test")
        none none none = .error (.valueError invalidIteratorTypeMsg)
    ∧ VALID_SHARD_ITERATOR_TYPES.all (fun v => strMentions invalidIteratorTypeMsg v)
        = true := by
  refine ⟨rfl, rfl, rfl, rfl, rfl, ?_, by decide⟩
  simp only [get_shard_iterator_validate]
  rw [if_neg (by decide), if_neg (by decide), if_neg (by decide), if_pos (by simp [ht])]

/-- C4 witness: an invalid iterator-type token at a concrete input. -/
theorem get_shard_iterator_cross_field_spec_witness :
    get_shard_iterator_validate "shardId-000000000001" "INVALID_TYPE" (some "test")
        none none none = .error (.valueError invalidIteratorTypeMsg) :=
  (get_shard_iterator_cross_field_spec "INVALID_TYPE" (by decide)).2.2.2.2.2.1

/-- C10: `describe_stream_consumer` validation succeeds only when both
`consumer_name` and `stream_arn` are provided and non-empty: supplying
only `consumer_name` raises a `ValueError`, supplying only `stream_arn`
raises a `ValueError`, and supplying only `consumer_arn` raises a
`ValueError`; the `consumer_arn` argument itself (universally quantified
with no hypotheses) is forwarded without any type or length
validation. -/
theorem describe_stream_consumer_spec (cn sa x : String) (ca : Option String)
    (hcn : cn ≠ "") (hsa : sa ≠ "")
    (h1 : 1 ≤ sa.length) (h2 : sa.length ≤ MAX_STREAM_ARN_LENGTH) :
    describe_stream_consumer_validate (some cn) none
        = .error (.valueError "stream_arn is required")
    ∧ describe_stream_consumer_validate none (some sa)
        = .error (.valueError "consumer_name is required")
    ∧ describe_stream_consumer none none (some x)
        = ([], .error (.valueError "Either consumer_name or stream_arn must be provided"))
    ∧ describe_stream_consumer (some cn) (some sa) ca
        = ([⟨"describe_stream_consumer",
            [("ConsumerName", .vStr cn), ("StreamARN", .vStr sa)]
              ++ optStrParam "ConsumerARN" ca⟩], .ok ()) := by
  have hv : describe_stream_consumer_validate (some cn) (some sa) = .ok () := by
    simp only [describe_stream_consumer_validate]
    rw [if_neg (by simp [strFalsy, hcn]), if_neg (by simp [strFalsy, hcn]),
      if_neg (by simp [strFalsy, hsa])]
    simp only [Option.getD_some]
    rw [if_neg (by unfold MIN_STREAM_ARN_LENGTH MAX_STREAM_ARN_LENGTH at *; omega)]
  refine ⟨?_, ?_, rfl, ?_⟩
  · simp only [describe_stream_consumer_validate]
    rw [if_neg (by simp [strFalsy, hcn]), if_neg (by simp [strFalsy, hcn]),
      if_pos (by simp [strFalsy])]
  · simp only [describe_stream_consumer_validate]
    rw [if_neg (by simp [strFalsy, hsa]), if_pos (by simp [strFalsy])]
  · simp only [describe_stream_consumer, hv, dispatch1, optStrParam]
    rfl

/-- C10 witness: concrete inputs, with an unvalidated `consumer_arn`
that is not even ARN-shaped. -/
theorem describe_stream_consumer_spec_witness :
    describe_stream_consumer (some "my-consumer")
        (some "arn:aws:kinesis:us-west-2:123456789012:stream/test")
        (some "definitely not an arn!!")
      = ([⟨"describe_stream_consumer",
          [("ConsumerName", .vStr "my-consumer"),
           ("StreamARN", .vStr "arn:aws:kinesis:us-west-2:123456789012:stream/test"),
           ("ConsumerARN", .vStr "definitely not an arn!!")]⟩], .ok ()) :=
  (describe_stream_consumer_spec "my-consumer"
    "arn:aws:kinesis:us-west-2:123456789012:stream/test" "x"
    (some "definitely not an arn!!")
    (by decide) (by decide) (by decide) (by decide)).2.2.2

/-- C6: In `put_records` (with a valid stream identifier), a batch of 0
records raises a `ValueError` and a batch of 501 records raises a
`ValueError`; a batch of 1 well-formed record and a batch of 500
well-formed records both pass validation.  (The 0-record batch hits the
`if not records` presence check first.) -/
theorem put_records_batch_spec :
    put_records_validate [] (some "test") none = .error (.valueError "records is required")
    ∧ put_records_validate (List.replicate 501 "r") (some "test") none
        = .error (.valueError recordsRangeMsg)
    ∧ put_records_validate ["r"] (some "test") none = .ok ()
    ∧ put_records_validate (List.replicate 500 "r") (some "test") none = .ok () := by
  have hlen1 : (List.replicate 501 "r").length = 501 := by rw [List.length_replicate]
  have hlen2 : (List.replicate 500 "r").length = 500 := by rw [List.length_replicate]
  have hne1 : List.replicate 501 "r" ≠ [] := by
    intro h; rw [h] at hlen1; simp at hlen1
  have hne2 : List.replicate 500 "r" ≠ [] := by
    intro h; rw [h] at hlen2; simp at hlen2
  refine ⟨rfl, ?_, rfl, ?_⟩
  · simp only [put_records_validate]
    rw [if_neg hne1, if_pos (by rw [hlen1]; unfold MIN_RECORDS MAX_RECORDS; omega)]
  · simp only [put_records_validate]
    rw [if_neg hne2, if_neg (by rw [hlen2]; unfold MIN_RECORDS MAX_RECORDS; omega),
      if_neg (by simp)]
    rfl

/-- C3 (code bug): after `describe_stream_summary`'s validation passes,
the parameter mapping forwarded to the client call is empty — the
caller-supplied `stream_name` / `stream_arn` are NOT included as
`StreamName`/`StreamARN` (server.py line 463 initialises `params = {}`
and nothing is ever inserted).  Evaluated at the input of the repo's own
test `test_describe_stream_summary_with_stream_arn`, which asserts
`assert_called_with(StreamARN=...)` and therefore fails against this
code. -/
theorem describe_stream_summary_forwards_empty_params :
    describe_stream_summary none
        (some "arn:aws:kinesis:us-west-2:123456789012:stream/test-stream")
      = ([⟨"describe_stream_summary", []⟩], .ok ())
    ∧ describe_stream_summary (some "test") none
      = ([⟨"describe_stream_summary", []⟩], .ok ()) :=
  ⟨rfl, rfl⟩

/-- A 51-entry tag map with distinct keys (key `i` is `i+1` copies of
`'k'`). -/
def tags51 : List (String × String) :=
  (List.range 51).map (fun i => (String.mk (List.replicate (i + 1) 'k'), "v"))

/-- C5 counterexample: the claim says every tag-accepting operation
(including `tag_resource`) fails a tag map with more than 50 entries, but
`tag_resource` performs no tag-count validation: a 51-entry map passes
validation and is forwarded to the client unchanged. -/
theorem tag_resource_accepts_51_tags :
    tags51.length = 51
    ∧ (tags51.map Prod.fst).Nodup
    ∧ tag_resource "arn:aws:kinesis:us-west-2:123456789012:stream/test" tags51
        = ([⟨"tag_resource",
            [("ResourceARN", .vStr "arn:aws:kinesis:us-west-2:123456789012:stream/test"),
             ("Tags", .vDict tags51)]⟩], .ok ()) := by
  refine ⟨by simp [tags51], by decide, rfl⟩

/-- C5 (amended): for `create_stream` and `add_tags_to_stream`, a tag map
with more than 50 entries fails validation with a `ValueError`, and a
tag map with exactly 50 well-formed entries passes the tag-count check
(full validation succeeds); `tag_resource` performs no tag-count
validation — any tag map passes its validation. -/
theorem tag_count_spec (tags : List (String × String)) (arn : String)
    (h1 : 1 ≤ arn.length) (h2 : arn.length ≤ MAX_STREAM_ARN_LENGTH) :
    (tags.length > 50 →
      create_stream_validate "test" none (some tags) = .error (.valueError tagsCountMsg)
      ∧ add_tags_to_stream_validate tags (some "test") none
          = .error (.valueError tagsCountMsg))
    ∧ (tags.length = 50 → (∀ kv ∈ tags, wellFormedTag kv) →
      create_stream_validate "test" none (some tags) = .ok ()
      ∧ add_tags_to_stream_validate tags (some "test") none = .ok ())
    ∧ tag_resource_validate arn tags = .ok () := by
  have harn : arn ≠ "" := by
    intro h
    rw [h] at h1
    simp at h1
  refine ⟨?_, ?_, ?_⟩
  · intro hgt
    have hne : tags ≠ [] := by
      intro h
      rw [h] at hgt
      simp at hgt
    constructor
    · simp only [create_stream_validate]
      rw [if_neg (by decide), if_neg (by decide), if_neg (by decide), if_neg (by decide)]
      show andThenE (Except.ok ()) _ = _
      rw [andThenE_ok, if_pos (by unfold MAX_TAGS_COUNT; omega)]
    · simp only [add_tags_to_stream_validate]
      rw [if_neg (by simp), if_neg hne, if_pos (by unfold MAX_TAGS_COUNT; omega)]
  · intro hlen hw
    have hne : tags ≠ [] := by
      intro h
      rw [h] at hlen
      simp at hlen
    constructor
    · simp only [create_stream_validate]
      rw [if_neg (by decide), if_neg (by decide), if_neg (by decide), if_neg (by decide)]
      show andThenE (Except.ok ()) _ = _
      rw [andThenE_ok, if_neg (by unfold MAX_TAGS_COUNT; omega),
        check_tag_entries_ok tags hw]
    · simp only [add_tags_to_stream_validate]
      rw [if_neg (by simp), if_neg hne, if_neg (by unfold MAX_TAGS_COUNT; omega),
        check_tag_entries_ok tags hw]
  · simp only [tag_resource_validate]
    rw [if_neg harn,
      if_neg (by unfold MIN_STREAM_ARN_LENGTH MAX_STREAM_ARN_LENGTH at *; omega)]

/-- C5 witness: 51 tags rejected by create_stream and add_tags_to_stream,
50 well-formed tags accepted, and tag_resource accepts any count. -/
theorem tag_count_spec_witness :
    create_stream_validate "test" none (some tags51) = .error (.valueError tagsCountMsg)
    ∧ add_tags_to_stream_validate (tags51.take 50) (some "test") none = .ok ()
    ∧ tag_resource_validate "arn:test" tags51 = .ok () := by
  have h := tag_count_spec tags51 "arn:test" (by decide) (by decide)
  have h50 := tag_count_spec (tags51.take 50) "arn:test" (by decide) (by decide)
  exact ⟨(h.1 (by decide)).1,
    (h50.2.1 (by decide) (by decide)).2,
    h.2.2⟩

/-- C8 counterexample: in `increase_stream_retention_period`, a
`ValueError` (the retention-period comparison) is raised AFTER a
`describe_stream` request has already been issued to the external
service: with valid arguments, requested hours 24 and current retention
48, the result is that `ValueError`, yet the list of issued service
calls is non-empty.  This refutes the claim that whenever a call fails
validation the external service has not been invoked. -/
theorem increase_retention_validates_after_service_call :
    increase_stream_retention_period 24 (some "test") none 48
      = ([⟨"describe_stream", [("StreamName", .vStr "test")]⟩],
         .error (.valueError (retentionMsg 48))) :=
  rfl

/-- C8 (amended): for every tool except
`increase_stream_retention_period`, all argument validation completes —
and any validation exception is raised — before any request is issued to
the external service client (an error outcome implies no client call was
made).  `increase_stream_retention_period` raises its argument-level
validation errors before any request too, but issues a `describe_stream`
request before its retention-period comparison: whenever it fails with
an error after having issued a call, that error is the retention-period
comparison `ValueError`. -/
theorem validation_before_dispatch_spec :
    (∀ records sn sa e, (put_records records sn sa).2 = .error e →
        (put_records records sn sa).1 = [])
    ∧ (∀ it l sa e, (get_records it l sa).2 = .error e → (get_records it l sa).1 = [])
    ∧ (∀ n c smd ts e, (create_stream n c smd ts).2 = .error e →
        (create_stream n c smd ts).1 = [])
    ∧ (∀ essn l nt e, (list_streams essn l nt).2 = .error e →
        (list_streams essn l nt).1 = [])
    ∧ (∀ sn sa e, (describe_stream_summary sn sa).2 = .error e →
        (describe_stream_summary sn sa).1 = [])
    ∧ (∀ sid t sn sa ssn ts e, (get_shard_iterator sid t sn sa ssn ts).2 = .error e →
        (get_shard_iterator sid t sn sa ssn ts).1 = [])
    ∧ (∀ tg sn sa e, (add_tags_to_stream tg sn sa).2 = .error e →
        (add_tags_to_stream tg sn sa).1 = [])
    ∧ (∀ sn sa l essi e, (describe_stream sn sa l essi).2 = .error e →
        (describe_stream sn sa l essi).1 = [])
    ∧ (∀ cn sa ca e, (describe_stream_consumer cn sa ca).2 = .error e →
        (describe_stream_consumer cn sa ca).1 = [])
    ∧ (∀ sa nt ct mr e, (list_stream_consumers sa nt ct mr).2 = .error e →
        (list_stream_consumers sa nt ct mr).1 = [])
    ∧ (∀ ra e, (list_tags_for_resource ra).2 = .error e →
        (list_tags_for_resource ra).1 = [])
    ∧ (∀ ms sn sa e, (enable_enhanced_monitoring ms sn sa).2 = .error e →
        (enable_enhanced_monitoring ms sn sa).1 = [])
    ∧ (∀ ra e, (get_resource_policy ra).2 = .error e → (get_resource_policy ra).1 = [])
    ∧ (∀ essi sn sa nt mr e, (list_shards essi sn sa nt mr).2 = .error e →
        (list_shards essi sn sa nt mr).1 = [])
    ∧ (∀ ra tg e, (tag_resource ra tg).2 = .error e → (tag_resource ra tg).1 = [])
    ∧ (∀ estk sn sa l e, (list_tags_for_stream estk sn sa l).2 = .error e →
        (list_tags_for_stream estk sn sa l).1 = [])
    ∧ (∀ ra p e, (put_resource_policy ra p).2 = .error e →
        (put_resource_policy ra p).1 = [])
    ∧ (∀ rph sn sa e, increase_stream_retention_period_validate rph sn sa = .error e →
        ∀ cur, increase_stream_retention_period rph sn sa cur = ([], .error e))
    ∧ (∀ rph sn sa cur e, (increase_stream_retention_period rph sn sa cur).2 = .error e →
        (increase_stream_retention_period rph sn sa cur).1 ≠ [] →
        e = .valueError (retentionMsg cur)) := by
  refine ⟨fun _ _ _ e h => dispatch1_error_calls _ _ e h,
    fun _ _ _ e h => dispatch1_error_calls _ _ e h,
    ?_,
    fun _ _ _ e h => dispatch1_error_calls _ _ e h,
    fun _ _ e h => dispatch1_error_calls _ _ e h,
    fun _ _ _ _ _ _ e h => dispatch1_error_calls _ _ e h,
    fun _ _ _ e h => dispatch1_error_calls _ _ e h,
    fun _ _ _ _ e h => dispatch1_error_calls _ _ e h,
    fun _ _ _ e h => dispatch1_error_calls _ _ e h,
    fun _ _ _ _ e h => dispatch1_error_calls _ _ e h,
    fun _ e h => dispatch1_error_calls _ _ e h,
    fun _ _ _ e h => dispatch1_error_calls _ _ e h,
    fun _ e h => dispatch1_error_calls _ _ e h,
    fun _ _ _ _ _ e h => dispatch1_error_calls _ _ e h,
    fun _ _ e h => dispatch1_error_calls _ _ e h,
    fun _ _ _ _ e h => dispatch1_error_calls _ _ e h,
    fun _ _ e h => dispatch1_error_calls _ _ e h,
    ?_, ?_⟩
  · intro n c smd ts e h
    unfold create_stream at h ⊢
    cases hv : create_stream_validate n c ts with
    | error e' => rfl
    | ok u =>
      rw [hv] at h
      cases smd with
      | none => rfl
      | some m => simp at h
  · intro rph sn sa e hv cur
    unfold increase_stream_retention_period
    rw [hv]
  · intro rph sn sa cur e h hc
    unfold increase_stream_retention_period at h hc
    cases hv : increase_stream_retention_period_validate rph sn sa with
    | error e' =>
      rw [hv] at hc
      simp at hc
    | ok u =>
      rw [hv] at h
      by_cases hle : rph ≤ cur
      · rw [if_pos hle] at h
        simp at h
        exact h.symm
      · rw [if_neg hle] at h
        simp at h

/-- C8 witness: a tool with failing validation issues no client call. -/
theorem validation_before_dispatch_spec_witness :
    (describe_stream_summary none none).1 = [] :=
  validation_before_dispatch_spec.2.2.2.2.1 none none
    (.valueError idRequiredMsg) rfl

/-! ## Per-operation error-propagation lemmas (for the length-bound
claims): a failing stream_name / stream_arn block makes the whole
validation fail with that error, with the other arguments fixed
well-formed. -/

theorem put_records_name_err (sn sa : Option String) (e : PyErr)
    (hid : ¬ (sn = none ∧ sa = none)) (hn : check_stream_name sn = .error e) :
    put_records_validate ["r"] sn sa = .error e := by
  simp only [put_records_validate]
  rw [if_neg (by simp), if_neg (by decide), if_neg hid, hn, andThenE_error]

theorem put_records_arn_err (sn sa : Option String) (e : PyErr)
    (hid : ¬ (sn = none ∧ sa = none)) (hn : check_stream_name sn = .ok ())
    (ha : check_stream_arn sa = .error e) :
    put_records_validate ["r"] sn sa = .error e := by
  simp only [put_records_validate]
  rw [if_neg (by simp), if_neg (by decide), if_neg hid, hn, andThenE_ok, ha]

theorem describe_stream_summary_name_err (sn sa : Option String) (e : PyErr)
    (hid : ¬ (sn = none ∧ sa = none)) (hn : check_stream_name sn = .error e) :
    describe_stream_summary_validate sn sa = .error e := by
  simp only [describe_stream_summary_validate]
  rw [if_neg hid, hn, andThenE_error]

theorem describe_stream_summary_arn_err (sn sa : Option String) (e : PyErr)
    (hid : ¬ (sn = none ∧ sa = none)) (hn : check_stream_name sn = .ok ())
    (ha : check_stream_arn sa = .error e) :
    describe_stream_summary_validate sn sa = .error e := by
  simp only [describe_stream_summary_validate]
  rw [if_neg hid, hn, andThenE_ok, ha]

theorem describe_stream_name_err (sn sa : Option String) (e : PyErr)
    (hid : ¬ (sn = none ∧ sa = none)) (hn : check_stream_name sn = .error e) :
    describe_stream_validate sn sa (some 100) none = .error e := by
  simp only [describe_stream_validate]
  rw [if_neg hid, hn, andThenE_error]

theorem describe_stream_arn_err (sn sa : Option String) (e : PyErr)
    (hid : ¬ (sn = none ∧ sa = none)) (hn : check_stream_name sn = .ok ())
    (ha : check_stream_arn sa = .error e) :
    describe_stream_validate sn sa (some 100) none = .error e := by
  simp only [describe_stream_validate]
  rw [if_neg hid, hn, andThenE_ok, ha, andThenE_error]

theorem get_shard_iterator_name_err (sn sa : Option String) (e : PyErr)
    (hid : ¬ (sn = none ∧ sa = none)) (hn : check_stream_name sn = .error e) :
    get_shard_iterator_validate "shardId-000000000001" "TRIM_HORIZON" sn sa none none
      = .error e := by
  simp only [get_shard_iterator_validate]
  rw [if_neg (by decide), if_neg (by decide), if_neg (by decide), if_neg (by decide),
    if_neg hid, hn, andThenE_error]

theorem get_shard_iterator_arn_err (sn sa : Option String) (e : PyErr)
    (hid : ¬ (sn = none ∧ sa = none)) (hn : check_stream_name sn = .ok ())
    (ha : check_stream_arn sa = .error e) :
    get_shard_iterator_validate "shardId-000000000001" "TRIM_HORIZON" sn sa none none
      = .error e := by
  simp only [get_shard_iterator_validate]
  rw [if_neg (by decide), if_neg (by decide), if_neg (by decide), if_neg (by decide),
    if_neg hid, hn, andThenE_ok, ha, andThenE_error]

theorem enable_enhanced_monitoring_name_err (sn sa : Option String) (e : PyErr)
    (hid : ¬ (sn = none ∧ sa = none)) (hn : check_stream_name sn = .error e) :
    enable_enhanced_monitoring_validate ["All"] sn sa = .error e := by
  simp only [enable_enhanced_monitoring_validate]
  rw [if_neg (by decide), if_neg (by decide)]
  have hm : check_metrics ["All"] = .ok () := rfl
  rw [hm, andThenE_ok, if_neg hid, hn, andThenE_error]

theorem enable_enhanced_monitoring_arn_err (sn sa : Option String) (e : PyErr)
    (hid : ¬ (sn = none ∧ sa = none)) (hn : check_stream_name sn = .ok ())
    (ha : check_stream_arn sa = .error e) :
    enable_enhanced_monitoring_validate ["All"] sn sa = .error e := by
  simp only [enable_enhanced_monitoring_validate]
  rw [if_neg (by decide), if_neg (by decide)]
  have hm : check_metrics ["All"] = .ok () := rfl
  rw [hm, andThenE_ok, if_neg hid, hn, andThenE_ok, ha]

theorem increase_stream_retention_period_name_err (sn sa : Option String) (e : PyErr)
    (hid : ¬ (sn = none ∧ sa = none)) (hn : check_stream_name sn = .error e) :
    increase_stream_retention_period_validate 48 sn sa = .error e := by
  simp only [increase_stream_retention_period_validate]
  rw [if_neg hid, hn, andThenE_error]

theorem increase_stream_retention_period_arn_err (sn sa : Option String) (e : PyErr)
    (hid : ¬ (sn = none ∧ sa = none)) (hn : check_stream_name sn = .ok ())
    (ha : check_stream_arn sa = .error e) :
    increase_stream_retention_period_validate 48 sn sa = .error e := by
  simp only [increase_stream_retention_period_validate]
  rw [if_neg hid, hn, andThenE_ok, ha]

theorem list_shards_name_err (sn sa : Option String) (e : PyErr)
    (hid : ¬ (sn = none ∧ sa = none)) (hn : check_stream_name sn = .error e) :
    list_shards_validate none sn sa none (some 1000) = .error e := by
  simp only [list_shards_validate]
  rw [if_neg hid, hn, andThenE_error]

theorem list_shards_arn_err (sn sa : Option String) (e : PyErr)
    (hid : ¬ (sn = none ∧ sa = none)) (hn : check_stream_name sn = .ok ())
    (ha : check_stream_arn sa = .error e) :
    list_shards_validate none sn sa none (some 1000) = .error e := by
  simp only [list_shards_validate]
  rw [if_neg hid, hn, andThenE_ok, ha, andThenE_error]

theorem list_tags_for_stream_name_err (sn sa : Option String) (e : PyErr)
    (hid : ¬ (sn = none ∧ sa = none)) (hn : check_stream_name sn = .error e) :
    list_tags_for_stream_validate none sn sa none = .error e := by
  simp only [list_tags_for_stream_validate]
  rw [if_neg hid, hn, andThenE_error]

theorem list_tags_for_stream_arn_err (sn sa : Option String) (e : PyErr)
    (hid : ¬ (sn = none ∧ sa = none)) (hn : check_stream_name sn = .ok ())
    (ha : check_stream_arn sa = .error e) :
    list_tags_for_stream_validate none sn sa none = .error e := by
  simp only [list_tags_for_stream_validate]
  rw [if_neg hid, hn, andThenE_ok, ha, andThenE_error]

/-! ## Length-bound group lemmas (one per string-length-bounded field) -/

/-- Stream name bounds (1-128) across the nine operations validating it. -/
theorem streamName_bounds (s : String) (hc : s.data.all isNameChar = true)
    (haws : pyStartsWith (pyLower s) "aws:" = false) :
    (s.length = 128 →
      put_records_validate ["r"] (some s) none = .ok ()
      ∧ create_stream_validate s none none = .ok ()
      ∧ describe_stream_summary_validate (some s) none = .ok ()
      ∧ get_shard_iterator_validate "shardId-000000000001" "TRIM_HORIZON" (some s) none
          none none = .ok ()
      ∧ describe_stream_validate (some s) none (some 100) none = .ok ()
      ∧ enable_enhanced_monitoring_validate ["All"] (some s) none = .ok ()
      ∧ increase_stream_retention_period_validate 48 (some s) none = .ok ()
      ∧ list_shards_validate none (some s) none none (some 1000) = .ok ()
      ∧ list_tags_for_stream_validate none (some s) none none = .ok ())
    ∧ (s.length = 129 →
      put_records_validate ["r"] (some s) none = .error (.valueError streamNameLenMsg)
      ∧ create_stream_validate s none none = .error (.valueError streamNameLenMsg)
      ∧ describe_stream_summary_validate (some s) none
          = .error (.valueError streamNameLenMsg)
      ∧ get_shard_iterator_validate "shardId-000000000001" "TRIM_HORIZON" (some s) none
          none none = .error (.valueError streamNameLenMsg)
      ∧ describe_stream_validate (some s) none (some 100) none
          = .error (.valueError streamNameLenMsg)
      ∧ enable_enhanced_monitoring_validate ["All"] (some s) none
          = .error (.valueError streamNameLenMsg)
      ∧ increase_stream_retention_period_validate 48 (some s) none
          = .error (.valueError streamNameLenMsg)
      ∧ list_shards_validate none (some s) none none (some 1000)
          = .error (.valueError streamNameLenMsg)
      ∧ list_tags_for_stream_validate none (some s) none none
          = .error (.valueError streamNameLenMsg)) := by
  have h0 : ("" : String).length = 0 := rfl
  constructor
  · intro hl
    have hne : s ≠ "" := by
      intro hh
      rw [hh, h0] at hl
      omega
    have hcn := check_stream_name_ok s hc (by omega)
      (by unfold MAX_STREAM_NAME_LENGTH; omega)
    have hca : check_stream_arn none = .ok () := rfl
    refine ⟨put_records_validate_ok _ _ _ (by simp)
        (by simp [MIN_RECORDS, MAX_RECORDS]) (by simp) hcn hca, ?_,
      describe_stream_summary_validate_ok _ _ (by simp) hcn hca,
      get_shard_iterator_validate_trim_ok _ _ (by simp) hcn hca,
      describe_stream_validate_ok _ _ _ _ (by simp) hcn hca rfl rfl,
      enable_enhanced_monitoring_validate_ok _ _ (by simp) hcn hca,
      increase_stream_retention_period_validate_ok _ _ _ (by simp) hcn hca,
      list_shards_validate_ok _ _ _ _ _ (by simp) hcn hca rfl rfl,
      list_tags_for_stream_validate_ok _ _ _ _ (by simp) hcn hca rfl⟩
    simp only [create_stream_validate]
    rw [if_neg hne,
      if_neg (by unfold MIN_STREAM_NAME_LENGTH MAX_STREAM_NAME_LENGTH; omega),
      if_neg (by simp [reMatchNamePattern, hc]; omega),
      if_neg (by simp [haws])]
    show andThenE (Except.ok ()) _ = _
    rw [andThenE_ok]
  · intro hl
    have hne : s ≠ "" := by
      intro hh
      rw [hh, h0] at hl
      omega
    have hcn := check_stream_name_too_long s hc
      (by unfold MAX_STREAM_NAME_LENGTH; omega)
    refine ⟨put_records_name_err _ _ _ (by simp) hcn, ?_,
      describe_stream_summary_name_err _ _ _ (by simp) hcn,
      get_shard_iterator_name_err _ _ _ (by simp) hcn,
      describe_stream_name_err _ _ _ (by simp) hcn,
      enable_enhanced_monitoring_name_err _ _ _ (by simp) hcn,
      increase_stream_retention_period_name_err _ _ _ (by simp) hcn,
      list_shards_name_err _ _ _ (by simp) hcn,
      list_tags_for_stream_name_err _ _ _ (by simp) hcn⟩
    simp only [create_stream_validate]
    rw [if_neg hne,
      if_pos (Or.inr (by unfold MAX_STREAM_NAME_LENGTH; omega))]

/-- Stream/resource ARN bounds (1-2048) across the operations validating
an ARN length. -/
theorem streamArn_bounds (s : String) :
    (s.length = 2048 →
      put_records_validate ["r"] none (some s) = .ok ()
      ∧ get_records_validate "it" (some 10000) (some s) = .ok ()
      ∧ describe_stream_summary_validate none (some s) = .ok ()
      ∧ get_shard_iterator_validate "shardId-000000000001" "TRIM_HORIZON" none (some s)
          none none = .ok ()
      ∧ describe_stream_validate none (some s) (some 100) none = .ok ()
      ∧ describe_stream_consumer_validate (some "c") (some s) = .ok ()
      ∧ list_stream_consumers_validate s none (some 100) = .ok ()
      ∧ list_tags_for_resource_validate s = .ok ()
      ∧ enable_enhanced_monitoring_validate ["All"] none (some s) = .ok ()
      ∧ get_resource_policy_validate s = .ok ()
      ∧ increase_stream_retention_period_validate 48 none (some s) = .ok ()
      ∧ list_shards_validate none none (some s) none (some 1000) = .ok ()
      ∧ tag_resource_validate s [("k", "v")] = .ok ()
      ∧ list_tags_for_stream_validate none none (some s) none = .ok ()
      ∧ put_resource_policy_validate s "p" = .ok ())
    ∧ (s.length = 2049 →
      put_records_validate ["r"] none (some s) = .error (.valueError streamArnLenMsg)
      ∧ get_records_validate "it" (some 10000) (some s)
          = .error (.valueError streamArnLenMsg)
      ∧ describe_stream_summary_validate none (some s)
          = .error (.valueError streamArnLenMsg)
      ∧ get_shard_iterator_validate "shardId-000000000001" "TRIM_HORIZON" none (some s)
          none none = .error (.valueError streamArnLenMsg)
      ∧ describe_stream_validate none (some s) (some 100) none
          = .error (.valueError streamArnLenMsg)
      ∧ describe_stream_consumer_validate (some "c") (some s)
          = .error (.valueError streamArnLenMsg)
      ∧ list_stream_consumers_validate s none (some 100)
          = .error (.valueError streamArnLenMsg)
      ∧ list_tags_for_resource_validate s = .error (.valueError streamArnLenMsg)
      ∧ enable_enhanced_monitoring_validate ["All"] none (some s)
          = .error (.valueError streamArnLenMsg)
      ∧ get_resource_policy_validate s = .error (.valueError resourceArnLenMsg)
      ∧ increase_stream_retention_period_validate 48 none (some s)
          = .error (.valueError streamArnLenMsg)
      ∧ list_shards_validate none none (some s) none (some 1000)
          = .error (.valueError streamArnLenMsg)
      ∧ tag_resource_validate s [("k", "v")] = .error (.valueError resourceArnLenMsg)
      ∧ list_tags_for_stream_validate none none (some s) none
          = .error (.valueError streamArnLenMsg)
      ∧ put_resource_policy_validate s "p"
          = .error (.valueError resourceArnLenMsg)) := by
  have h0 : ("" : String).length = 0 := rfl
  constructor
  · intro hl
    have hne : s ≠ "" := by
      intro hh
      rw [hh, h0] at hl
      omega
    have harnr : ¬ (s.length < MIN_STREAM_ARN_LENGTH ∨ s.length > MAX_STREAM_ARN_LENGTH) := by
      unfold MIN_STREAM_ARN_LENGTH MAX_STREAM_ARN_LENGTH
      omega
    have hca := check_stream_arn_ok s (by omega) (by unfold MAX_STREAM_ARN_LENGTH; omega)
    have hcn : check_stream_name none = .ok () := rfl
    refine ⟨put_records_validate_ok _ _ _ (by simp)
        (by simp [MIN_RECORDS, MAX_RECORDS]) (by simp) hcn hca, ?_,
      describe_stream_summary_validate_ok _ _ (by simp) hcn hca,
      get_shard_iterator_validate_trim_ok _ _ (by simp) hcn hca,
      describe_stream_validate_ok _ _ _ _ (by simp) hcn hca rfl rfl, ?_, ?_, ?_,
      enable_enhanced_monitoring_validate_ok _ _ (by simp) hcn hca, ?_,
      increase_stream_retention_period_validate_ok _ _ _ (by simp) hcn hca,
      list_shards_validate_ok _ _ _ _ _ (by simp) hcn hca rfl rfl, ?_,
      list_tags_for_stream_validate_ok _ _ _ _ (by simp) hcn hca rfl, ?_⟩
    · simp only [get_records_validate]
      rw [if_neg (by decide), if_neg (by decide)]
      show (if (10000 : Int) < MIN_LIMIT ∨ (10000 : Int) > MAX_LIMIT then _ else _) = _
      rw [if_neg (by decide)]
      exact hca
    · simp only [describe_stream_consumer_validate]
      rw [if_neg (by simp [strFalsy]), if_neg (by simp [strFalsy]),
        if_neg (by simp [strFalsy, hne])]
      simp only [Option.getD_some]
      rw [if_neg harnr]
    · simp only [list_stream_consumers_validate]
      rw [if_neg hne, if_neg harnr]
      rfl
    · simp only [list_tags_for_resource_validate]
      rw [if_neg hne, if_neg harnr]
    · simp only [get_resource_policy_validate]
      rw [if_neg hne, if_neg harnr]
    · simp only [tag_resource_validate]
      rw [if_neg hne, if_neg harnr]
    · simp only [put_resource_policy_validate]
      rw [if_neg hne, if_neg harnr, if_neg (by decide)]
  · intro hl
    have hne : s ≠ "" := by
      intro hh
      rw [hh, h0] at hl
      omega
    have harnr : s.length < MIN_STREAM_ARN_LENGTH ∨ s.length > MAX_STREAM_ARN_LENGTH :=
      Or.inr (by unfold MAX_STREAM_ARN_LENGTH; omega)
    have hca := check_stream_arn_too_long s (by unfold MAX_STREAM_ARN_LENGTH; omega)
    have hcn : check_stream_name none = .ok () := rfl
    refine ⟨put_records_arn_err _ _ _ (by simp) hcn hca, ?_,
      describe_stream_summary_arn_err _ _ _ (by simp) hcn hca,
      get_shard_iterator_arn_err _ _ _ (by simp) hcn hca,
      describe_stream_arn_err _ _ _ (by simp) hcn hca, ?_, ?_, ?_,
      enable_enhanced_monitoring_arn_err _ _ _ (by simp) hcn hca, ?_,
      increase_stream_retention_period_arn_err _ _ _ (by simp) hcn hca,
      list_shards_arn_err _ _ _ (by simp) hcn hca, ?_,
      list_tags_for_stream_arn_err _ _ _ (by simp) hcn hca, ?_⟩
    · simp only [get_records_validate]
      rw [if_neg (by decide), if_neg (by decide)]
      show (if (10000 : Int) < MIN_LIMIT ∨ (10000 : Int) > MAX_LIMIT then _ else _) = _
      rw [if_neg (by decide)]
      exact hca
    · simp only [describe_stream_consumer_validate]
      rw [if_neg (by simp [strFalsy]), if_neg (by simp [strFalsy]),
        if_neg (by simp [strFalsy, hne])]
      simp only [Option.getD_some]
      rw [if_pos harnr]
    · simp only [list_stream_consumers_validate]
      rw [if_neg hne, if_pos harnr]
    · simp only [list_tags_for_resource_validate]
      rw [if_neg hne, if_pos harnr]
    · simp only [get_resource_policy_validate]
      rw [if_neg hne, if_pos harnr]
    · simp only [tag_resource_validate]
      rw [if_neg hne, if_pos harnr]
    · simp only [put_resource_policy_validate]
      rw [if_neg hne, if_pos harnr]

/-- Shard-id bounds (1-128): `shard_id` in get_shard_iterator and
`exclusive_start_shard_id` in describe_stream and list_shards. -/
theorem shardId_bounds (s : String) (hc : s.data.all isNameChar = true) :
    (s.length = 128 →
      get_shard_iterator_validate s "TRIM_HORIZON" (some "test") none none none = .ok ()
      ∧ describe_stream_validate (some "test") none (some 100) (some s) = .ok ()
      ∧ list_shards_validate (some s) (some "test") none none (some 1000) = .ok ())
    ∧ (s.length = 129 →
      get_shard_iterator_validate s "TRIM_HORIZON" (some "test") none none none
          = .error (.valueError shardIdLenMsg)
      ∧ describe_stream_validate (some "test") none (some 100) (some s)
          = .error (.valueError exclusiveStartShardIdLenMsg)
      ∧ list_shards_validate (some s) (some "test") none none (some 1000)
          = .error (.valueError exclusiveStartShardIdLenMsg)) := by
  have h0 : ("" : String).length = 0 := rfl
  have hct : check_stream_name (some "test") = .ok () := rfl
  have hca : check_stream_arn none = .ok () := rfl
  constructor
  · intro hl
    have hne : s ≠ "" := by
      intro hh
      rw [hh, h0] at hl
      omega
    have he := check_essi_ok s hc (by omega) (by unfold MAX_SHARD_ID_LENGTH; omega)
    refine ⟨?_, describe_stream_validate_ok _ _ _ _ (by simp) hct hca rfl he,
      list_shards_validate_ok _ _ _ _ _ (by simp) hct hca he rfl⟩
    simp only [get_shard_iterator_validate]
    rw [if_neg hne,
      if_neg (by unfold MIN_SHARD_ID_LENGTH MAX_SHARD_ID_LENGTH; omega),
      if_neg (by simp [reMatchNamePattern, hc]; omega),
      if_neg (by decide), if_neg (by simp), hct, andThenE_ok, hca, andThenE_ok]
    rfl
  · intro hl
    have hne : s ≠ "" := by
      intro hh
      rw [hh, h0] at hl
      omega
    have he := check_essi_too_long s hc (by unfold MAX_SHARD_ID_LENGTH; omega)
    refine ⟨?_, ?_, ?_⟩
    · simp only [get_shard_iterator_validate]
      rw [if_neg hne, if_pos (Or.inr (by unfold MAX_SHARD_ID_LENGTH; omega))]
    · simp only [describe_stream_validate]
      rw [if_neg (by simp), hct, andThenE_ok, hca, andThenE_ok]
      show andThenE (Except.ok ()) _ = _
      rw [andThenE_ok, he]
    · simp only [list_shards_validate]
      rw [if_neg (by simp), hct, andThenE_ok, hca, andThenE_ok, he, andThenE_error]

/-- Shard-iterator bounds (1-512) in get_records. -/
theorem shardIterator_bounds (s : String) :
    (s.length = 512 → get_records_validate s (some 10000) none = .ok ())
    ∧ (s.length = 513 →
      get_records_validate s (some 10000) none = .error (.valueError shardIteratorLenMsg)) := by
  have h0 : ("" : String).length = 0 := rfl
  constructor
  · intro hl
    have hne : s ≠ "" := by
      intro hh
      rw [hh, h0] at hl
      omega
    simp only [get_records_validate]
    rw [if_neg hne,
      if_neg (by unfold MIN_LENGTH_SHARD_ITERATOR MAX_LENGTH_SHARD_ITERATOR; omega)]
    show (if (10000 : Int) < MIN_LIMIT ∨ (10000 : Int) > MAX_LIMIT then _ else _) = _
    rw [if_neg (by decide)]
    rfl
  · intro hl
    have hne : s ≠ "" := by
      intro hh
      rw [hh, h0] at hl
      omega
    simp only [get_records_validate]
    rw [if_neg hne, if_pos (Or.inr (by unfold MAX_LENGTH_SHARD_ITERATOR; omega))]

/-- Tag-key bounds (1-128) in create_stream and add_tags_to_stream. -/
theorem tagKey_bounds (k : String) :
    (k.length = 128 →
      create_stream_validate "test" none (some [(k, "v")]) = .ok ()
      ∧ add_tags_to_stream_validate [(k, "v")] (some "test") none = .ok ())
    ∧ (k.length = 129 →
      create_stream_validate "test" none (some [(k, "v")])
          = .error (.valueError tagKeyLenMsg)
      ∧ add_tags_to_stream_validate [(k, "v")] (some "test") none
          = .error (.valueError tagKeyLenMsg)) := by
  constructor
  · intro hl
    have hwf : wellFormedTag (k, "v") := by
      unfold wellFormedTag
      dsimp only
      unfold MAX_TAG_KEY_LENGTH MAX_TAG_VALUE_LENGTH
      refine ⟨by omega, by omega, by decide⟩
    have hw : check_tag_entries [(k, "v")] = .ok () :=
      check_tag_entries_ok _ (by
        intro kv hkv
        simp at hkv
        subst hkv
        exact hwf)
    constructor
    · simp only [create_stream_validate]
      rw [if_neg (by decide), if_neg (by decide), if_neg (by decide), if_neg (by decide)]
      show andThenE (Except.ok ()) _ = _
      rw [andThenE_ok, if_neg (by simp [MAX_TAGS_COUNT]), hw]
    · exact add_tags_to_stream_validate_ok _ _ _ (by simp) (by simp)
        (by simp [MAX_TAGS_COUNT]) hw
  · intro hl
    have hw : check_tag_entries [(k, "v")] = .error (.valueError tagKeyLenMsg) := by
      simp only [check_tag_entries]
      rw [if_pos (Or.inr (by unfold MAX_TAG_KEY_LENGTH; omega))]
    constructor
    · simp only [create_stream_validate]
      rw [if_neg (by decide), if_neg (by decide), if_neg (by decide), if_neg (by decide)]
      show andThenE (Except.ok ()) _ = _
      rw [andThenE_ok, if_neg (by simp [MAX_TAGS_COUNT]), hw]
    · simp only [add_tags_to_stream_validate]
      rw [if_neg (by simp), if_neg (by simp), if_neg (by simp [MAX_TAGS_COUNT]), hw]

/-- Tag-value bounds (0-256) in create_stream and add_tags_to_stream. -/
theorem tagValue_bounds (v : String) :
    (v.length = 256 →
      create_stream_validate "test" none (some [("k", v)]) = .ok ()
      ∧ add_tags_to_stream_validate [("k", v)] (some "test") none = .ok ())
    ∧ (v.length = 257 →
      create_stream_validate "test" none (some [("k", v)])
          = .error (.valueError tagValueLenMsg)
      ∧ add_tags_to_stream_validate [("k", v)] (some "test") none
          = .error (.valueError tagValueLenMsg)) := by
  constructor
  · intro hl
    have hwf : wellFormedTag ("k", v) := by
      unfold wellFormedTag
      dsimp only
      unfold MAX_TAG_KEY_LENGTH MAX_TAG_VALUE_LENGTH
      refine ⟨by decide, by decide, by omega⟩
    have hw : check_tag_entries [("k", v)] = .ok () :=
      check_tag_entries_ok _ (by
        intro kv hkv
        simp at hkv
        subst hkv
        exact hwf)
    constructor
    · simp only [create_stream_validate]
      rw [if_neg (by decide), if_neg (by decide), if_neg (by decide), if_neg (by decide)]
      show andThenE (Except.ok ()) _ = _
      rw [andThenE_ok, if_neg (by simp [MAX_TAGS_COUNT]), hw]
    · exact add_tags_to_stream_validate_ok _ _ _ (by simp) (by simp)
        (by simp [MAX_TAGS_COUNT]) hw
  · intro hl
    have hw : check_tag_entries [("k", v)] = .error (.valueError tagValueLenMsg) := by
      simp only [check_tag_entries]
      rw [if_neg (by unfold MIN_TAG_KEY_LENGTH MAX_TAG_KEY_LENGTH; decide),
        if_pos (by unfold MAX_TAG_VALUE_LENGTH; omega)]
    constructor
    · simp only [create_stream_validate]
      rw [if_neg (by decide), if_neg (by decide), if_neg (by decide), if_neg (by decide)]
      show andThenE (Except.ok ()) _ = _
      rw [andThenE_ok, if_neg (by simp [MAX_TAGS_COUNT]), hw]
    · simp only [add_tags_to_stream_validate]
      rw [if_neg (by simp), if_neg (by simp), if_neg (by simp [MAX_TAGS_COUNT]), hw]

/-- C7: For every string-length-bounded field, in every operation that
validates it (stream name 1-128; stream/resource ARN 1-2048; shard id
1-128, including the shard-id-typed `exclusive_start_shard_id`; shard
iterator 1-512; tag key 1-128; tag value 0-256), an otherwise well-formed
value whose length equals the maximum passes that field's validation
(full validation succeeds with the other arguments well-formed), and a
value one character longer fails with a `ValueError`. -/
theorem length_bounds_spec :
    (∀ s : String, s.data.all isNameChar = true →
      pyStartsWith (pyLower s) "aws:" = false →
      (s.length = 128 →
        put_records_validate ["r"] (some s) none = .ok ()
        ∧ create_stream_validate s none none = .ok ()
        ∧ describe_stream_summary_validate (some s) none = .ok ()
        ∧ get_shard_iterator_validate "shardId-000000000001" "TRIM_HORIZON" (some s) none
            none none = .ok ()
        ∧ describe_stream_validate (some s) none (some 100) none = .ok ()
        ∧ enable_enhanced_monitoring_validate ["All"] (some s) none = .ok ()
        ∧ increase_stream_retention_period_validate 48 (some s) none = .ok ()
        ∧ list_shards_validate none (some s) none none (some 1000) = .ok ()
        ∧ list_tags_for_stream_validate none (some s) none none = .ok ())
      ∧ (s.length = 129 →
        put_records_validate ["r"] (some s) none = .error (.valueError streamNameLenMsg)
        ∧ create_stream_validate s none none = .error (.valueError streamNameLenMsg)
        ∧ describe_stream_summary_validate (some s) none
            = .error (.valueError streamNameLenMsg)
        ∧ get_shard_iterator_validate "shardId-000000000001" "TRIM_HORIZON" (some s) none
            none none = .error (.valueError streamNameLenMsg)
        ∧ describe_stream_validate (some s) none (some 100) none
            = .error (.valueError streamNameLenMsg)
        ∧ enable_enhanced_monitoring_validate ["All"] (some s) none
            = .error (.valueError streamNameLenMsg)
        ∧ increase_stream_retention_period_validate 48 (some s) none
            = .error (.valueError streamNameLenMsg)
        ∧ list_shards_validate none (some s) none none (some 1000)
            = .error (.valueError streamNameLenMsg)
        ∧ list_tags_for_stream_validate none (some s) none none
            = .error (.valueError streamNameLenMsg)))
    ∧ (∀ s : String,
      (s.length = 2048 →
        put_records_validate ["r"] none (some s) = .ok ()
        ∧ get_records_validate "it" (some 10000) (some s) = .ok ()
        ∧ describe_stream_summary_validate none (some s) = .ok ()
        ∧ get_shard_iterator_validate "shardId-000000000001" "TRIM_HORIZON" none (some s)
            none none = .ok ()
        ∧ describe_stream_validate none (some s) (some 100) none = .ok ()
        ∧ describe_stream_consumer_validate (some "c") (some s) = .ok ()
        ∧ list_stream_consumers_validate s none (some 100) = .ok ()
        ∧ list_tags_for_resource_validate s = .ok ()
        ∧ enable_enhanced_monitoring_validate ["All"] none (some s) = .ok ()
        ∧ get_resource_policy_validate s = .ok ()
        ∧ increase_stream_retention_period_validate 48 none (some s) = .ok ()
        ∧ list_shards_validate none none (some s) none (some 1000) = .ok ()
        ∧ tag_resource_validate s [("k", "v")] = .ok ()
        ∧ list_tags_for_stream_validate none none (some s) none = .ok ()
        ∧ put_resource_policy_validate s "p" = .ok ())
      ∧ (s.length = 2049 →
        put_records_validate ["r"] none (some s) = .error (.valueError streamArnLenMsg)
        ∧ get_records_validate "it" (some 10000) (some s)
            = .error (.valueError streamArnLenMsg)
        ∧ describe_stream_summary_validate none (some s)
            = .error (.valueError streamArnLenMsg)
        ∧ get_shard_iterator_validate "shardId-000000000001" "TRIM_HORIZON" none (some s)
            none none = .error (.valueError streamArnLenMsg)
        ∧ describe_stream_validate none (some s) (some 100) none
            = .error (.valueError streamArnLenMsg)
        ∧ describe_stream_consumer_validate (some "c") (some s)
            = .error (.valueError streamArnLenMsg)
        ∧ list_stream_consumers_validate s none (some 100)
            = .error (.valueError streamArnLenMsg)
        ∧ list_tags_for_resource_validate s = .error (.valueError streamArnLenMsg)
        ∧ enable_enhanced_monitoring_validate ["All"] none (some s)
            = .error (.valueError streamArnLenMsg)
        ∧ get_resource_policy_validate s = .error (.valueError resourceArnLenMsg)
        ∧ increase_stream_retention_period_validate 48 none (some s)
            = .error (.valueError streamArnLenMsg)
        ∧ list_shards_validate none none (some s) none (some 1000)
            = .error (.valueError streamArnLenMsg)
        ∧ tag_resource_validate s [("k", "v")] = .error (.valueError resourceArnLenMsg)
        ∧ list_tags_for_stream_validate none none (some s) none
            = .error (.valueError streamArnLenMsg)
        ∧ put_resource_policy_validate s "p"
            = .error (.valueError resourceArnLenMsg)))
    ∧ (∀ s : String, s.data.all isNameChar = true →
      (s.length = 128 →
        get_shard_iterator_validate s "TRIM_HORIZON" (some "test") none none none = .ok ()
        ∧ describe_stream_validate (some "test") none (some 100) (some s) = .ok ()
        ∧ list_shards_validate (some s) (some "test") none none (some 1000) = .ok ())
      ∧ (s.length = 129 →
        get_shard_iterator_validate s "TRIM_HORIZON" (some "test") none none none
            = .error (.valueError shardIdLenMsg)
        ∧ describe_stream_validate (some "test") none (some 100) (some s)
            = .error (.valueError exclusiveStartShardIdLenMsg)
        ∧ list_shards_validate (some s) (some "test") none none (some 1000)
            = .error (.valueError exclusiveStartShardIdLenMsg)))
    ∧ (∀ s : String,
      (s.length = 512 → get_records_validate s (some 10000) none = .ok ())
      ∧ (s.length = 513 →
        get_records_validate s (some 10000) none
          = .error (.valueError shardIteratorLenMsg)))
    ∧ (∀ k : String,
      (k.length = 128 →
        create_stream_validate "test" none (some [(k, "v")]) = .ok ()
        ∧ add_tags_to_stream_validate [(k, "v")] (some "test") none = .ok ())
      ∧ (k.length = 129 →
        create_stream_validate "test" none (some [(k, "v")])
            = .error (.valueError tagKeyLenMsg)
        ∧ add_tags_to_stream_validate [(k, "v")] (some "test") none
            = .error (.valueError tagKeyLenMsg)))
    ∧ (∀ v : String,
      (v.length = 256 →
        create_stream_validate "test" none (some [("k", v)]) = .ok ()
        ∧ add_tags_to_stream_validate [("k", v)] (some "test") none = .ok ())
      ∧ (v.length = 257 →
        create_stream_validate "test" none (some [("k", v)])
            = .error (.valueError tagValueLenMsg)
        ∧ add_tags_to_stream_validate [("k", v)] (some "test") none
            = .error (.valueError tagValueLenMsg))) :=
  ⟨fun s hc haws => streamName_bounds s hc haws,
   fun s => streamArn_bounds s,
   fun s hc => shardId_bounds s hc,
   fun s => shardIterator_bounds s,
   fun k => tagKey_bounds k,
   fun v => tagValue_bounds v⟩

/-- C7 witness: a maximum-length ARN passes put_records validation and a
maximum-length shard iterator passes get_records validation. -/
theorem length_bounds_spec_witness :
    put_records_validate ["r"] none (some (String.mk (List.replicate 2048 'a'))) = .ok ()
    ∧ get_records_validate (String.mk (List.replicate 512 'i')) (some 10000) none
        = .ok () :=
  ⟨((length_bounds_spec.2.1 (String.mk (List.replicate 2048 'a'))).1
      (by show (List.replicate 2048 'a').length = 2048; rw [List.length_replicate])).1,
   (length_bounds_spec.2.2.2.1 (String.mk (List.replicate 512 'i'))).1
      (by show (List.replicate 512 'i').length = 512; rw [List.length_replicate])⟩
